import Mathlib

/-!
# TNB bill calculator: the billing engine of `script.js`

A shallow embedding of the pure part of `script.js`: the tariff constants, the
energy-efficiency incentive table with its lookup `getIncentiveRate`, the
itemised bill `calculateTnbBill`, the solar savings `calculateAtapSavings`, the
payback computation `calculateROI` and the bill / kWh conversions.

JavaScript numbers are read as exact rationals (`ℚ`): sums, products and
comparisons are the mathematical ones, `Math.min` / `Math.max` are `min` / `max`,
and `Math.round x` is `⌊x + 1/2⌋` (ties go up).  `parseFloat` applied to a
number is the identity, so the two arguments of `calculateTnbBill` are taken as
rationals directly.

The exact reading differs from the script by binary64 representation error
only, except in `kwtbb` and `serviceTax`, where the script rounds a binary64
product to the cent: at an exact half-cent tie the product can fall just below
the tie and the script returns the lower cent.  `calculateTnbBillBinary64` is
the same function with every operation rounded to binary64; it is used where
the cent depends on it.
-/

namespace TnbCalc

/-! ## Constants (script.js, lines 1-19) -/

/-- Blended retail rate for monthly usage `<= 1500` kWh (RM/kWh). -/
def RETAIL_TARIFF_LOW : ℚ := 0.4443

/-- Blended retail rate for monthly usage `> 1500` kWh (RM/kWh). -/
def RETAIL_TARIFF_HIGH : ℚ := 0.5443

/-- Fixed export rate (RM/kWh). -/
def FIXED_SMP_RATE : ℚ := 0.20

/-- The record `rates.domestic`: per-kWh rates in sen, retail charge in RM. -/
structure DomesticRates where
  energy : ℚ
  energyHigh : ℚ
  capacity : ℚ
  network : ℚ
  retail : ℚ

/-- The object `rates`. -/
structure Rates where
  domestic : DomesticRates

/-- The constant `rates` of the script. -/
def rates : Rates :=
  { domestic :=
      { energy := 27.03
        energyHigh := 37.03
        capacity := 4.55
        network := 12.85
        retail := 10.00 } }

/-! ## Incentive table (script.js, lines 21-48) -/

/-- One entry `{ min, max, rate }` of `incentiveRates`. -/
structure IncentiveRange where
  min : ℚ
  max : ℚ
  rate : ℚ
deriving DecidableEq

/-- The table `incentiveRates`, in source order. -/
def incentiveRates : List IncentiveRange :=
  [ { min := 1, max := 200, rate := -0.25 },
    { min := 201, max := 250, rate := -0.245 },
    { min := 251, max := 300, rate := -0.225 },
    { min := 301, max := 350, rate := -0.21 },
    { min := 351, max := 400, rate := -0.17 },
    { min := 401, max := 450, rate := -0.145 },
    { min := 451, max := 500, rate := -0.12 },
    { min := 501, max := 550, rate := -0.105 },
    { min := 551, max := 600, rate := -0.09 },
    { min := 601, max := 650, rate := -0.075 },
    { min := 651, max := 700, rate := -0.055 },
    { min := 701, max := 750, rate := -0.045 },
    { min := 751, max := 800, rate := -0.04 },
    { min := 801, max := 850, rate := -0.025 },
    { min := 851, max := 900, rate := -0.01 },
    { min := 901, max := 1000, rate := -0.005 } ]

/-- The range test of the loop body: `usage >= range.min && usage <= range.max`. -/
def inRange (usage : ℚ) (range : IncentiveRange) : Prop :=
  usage ≥ range.min ∧ usage ≤ range.max

instance (usage : ℚ) (range : IncentiveRange) : Decidable (inRange usage range) := by
  unfold inRange; infer_instance

/-- The `for (const range of ...)` loop of `getIncentiveRate` over a table:
return the rate of the first range that contains `usage`, and `0` after the
last one. -/
def scanRanges : List IncentiveRange → ℚ → ℚ
  | [], _ => 0
  | range :: rest, usage =>
      if inRange usage range then range.rate else scanRanges rest usage

/-- The function `getIncentiveRate(usage)`. -/
def getIncentiveRate (usage : ℚ) : ℚ :=
  scanRanges incentiveRates usage

/-! ## The bill (script.js, lines 50-153) -/

/-- `Math.round`: the nearest integer, ties towards `+∞`. -/
def mathRound (x : ℚ) : ℚ :=
  (⌊x + 1 / 2⌋ : ℤ)

/-- The object returned by `calculateTnbBill`. -/
structure Bill where
  billAmount : ℚ
  usageNonService : ℚ
  usageService : ℚ
  usageTotal : ℚ
  energyNonService : ℚ
  energyService : ℚ
  energyTotal : ℚ
  afaNonService : ℚ
  afaService : ℚ
  afaTotal : ℚ
  capacityNonService : ℚ
  capacityService : ℚ
  capacityTotal : ℚ
  networkNonService : ℚ
  networkService : ℚ
  networkTotal : ℚ
  retailService : ℚ
  incentiveNonService : ℚ
  incentiveService : ℚ
  incentiveTotal : ℚ
  usageChargeNonService : ℚ
  usageChargeService : ℚ
  usageChargeTotal : ℚ
  serviceTax : ℚ
  kwtbb : ℚ
  totalBeforeSolar : ℚ

/-- The function `calculateTnbBill(usage, afaRate)`; the local names are the
ones of the source. -/
def calculateTnbBill (usage afaRate : ℚ) : Bill :=
  let highUsage : Prop := usage > 1500
  let energyRateSen := if highUsage then rates.domestic.energyHigh else rates.domestic.energy
  let energyRateRM := energyRateSen / 100
  let baseUsage := min usage 600
  let excessUsage := max (usage - 600) 0
  let baseEnergy := baseUsage * energyRateRM
  let excessEnergy := excessUsage * energyRateRM
  let capacityRateRM := rates.domestic.capacity / 100
  let networkRateRM := rates.domestic.network / 100
  let baseCapacity := baseUsage * capacityRateRM
  let excessCapacity := excessUsage * capacityRateRM
  let baseNetwork := baseUsage * networkRateRM
  let excessNetwork := excessUsage * networkRateRM
  let incentiveRate := getIncentiveRate usage
  let baseIncentive := baseUsage * incentiveRate
  let excessIncentive := excessUsage * incentiveRate
  let totalIncentive := baseIncentive + excessIncentive
  let retailCharge := if excessUsage > 0 then rates.domestic.retail else 0
  let afaRateRM := afaRate / 100
  let baseAFA := if usage > 600 then baseUsage * afaRateRM else 0
  let excessAFA := if usage > 600 then excessUsage * afaRateRM else 0
  let totalAFA := if usage > 600 then baseAFA + excessAFA else 0
  let withoutServiceTax := baseEnergy + baseCapacity + baseNetwork + baseIncentive + baseAFA
  let withServiceTax :=
    excessEnergy + excessCapacity + excessNetwork + retailCharge + excessIncentive + excessAFA
  let currentCharge := withoutServiceTax + withServiceTax
  let kwtbbBase :=
    (baseEnergy + excessEnergy) + (baseCapacity + excessCapacity) +
      (baseNetwork + excessNetwork) + (baseIncentive + excessIncentive)
  let kwtbb := if usage > 300 then mathRound (kwtbbBase * 0.016 * 100) / 100 else 0
  let sst := if excessUsage > 0 then mathRound (withServiceTax * 0.08 * 100) / 100 else 0
  let grandTotal := currentCharge + kwtbb + sst
  { billAmount := grandTotal
    usageNonService := baseUsage
    usageService := excessUsage
    usageTotal := usage
    energyNonService := baseEnergy
    energyService := excessEnergy
    energyTotal := baseEnergy + excessEnergy
    afaNonService := baseAFA
    afaService := excessAFA
    afaTotal := totalAFA
    capacityNonService := baseCapacity
    capacityService := excessCapacity
    capacityTotal := baseCapacity + excessCapacity
    networkNonService := baseNetwork
    networkService := excessNetwork
    networkTotal := baseNetwork + excessNetwork
    retailService := retailCharge
    incentiveNonService := baseIncentive
    incentiveService := excessIncentive
    incentiveTotal := totalIncentive
    usageChargeNonService := withoutServiceTax
    usageChargeService := withServiceTax
    usageChargeTotal := currentCharge
    serviceTax := sst
    kwtbb := kwtbb
    totalBeforeSolar := grandTotal }

/-! ## Binary64 reading of the bill (script.js, lines 50-153)

The script computes in binary64.  `calculateTnbBill` above reads every operation
exactly; that changes a value by representation error only, except where the
script rounds to the cent: `Math.round(x * 100) / 100` is applied to a binary64
product, which at an exact half-cent tie can lie just below the tie.
`calculateTnbBillBinary64` is the same function with every decimal literal and
every arithmetic operation rounded to the nearest binary64 value (ties to even).
Overflow and subnormal numbers are not modelled; the bills of the script are
far from both. -/

/-- Round to the nearest integer, ties to the even one. -/
def roundHalfEven (x : ℚ) : ℤ :=
  let f := ⌊x⌋
  if x - f < 1 / 2 then f
  else if x - f > 1 / 2 then f + 1
  else if f % 2 = 0 then f else f + 1

/-- The binary64 value nearest to `x`: `x` is scaled to an integer of 53 bits,
rounded (ties to even) and scaled back. -/
def toBinary64 (x : ℚ) : ℚ :=
  if x = 0 then 0
  else
    let ulp : ℚ := 2 ^ (Int.log 2 |x| - 52)
    roundHalfEven (x / ulp) * ulp

/-- Binary64 `a + b`. -/
def f64add (a b : ℚ) : ℚ := toBinary64 (a + b)

/-- Binary64 `a - b`. -/
def f64sub (a b : ℚ) : ℚ := toBinary64 (a - b)

/-- Binary64 `a * b`. -/
def f64mul (a b : ℚ) : ℚ := toBinary64 (a * b)

/-- Binary64 `a / b`. -/
def f64div (a b : ℚ) : ℚ := toBinary64 (a / b)

/-- The function `calculateTnbBill(usage, afaRate)` in binary64.  `parseFloat`
gives the binary64 value of its argument; `Math.min`, `Math.max`, the
comparisons and `Math.round` are exact on binary64 values. -/
def calculateTnbBillBinary64 (usage afaRate : ℚ) : Bill :=
  let usage := toBinary64 usage
  let afaRate := toBinary64 afaRate
  let highUsage : Prop := usage > 1500
  let energyRateSen :=
    if highUsage then toBinary64 rates.domestic.energyHigh else toBinary64 rates.domestic.energy
  let energyRateRM := f64div energyRateSen 100
  let baseUsage := min usage 600
  let excessUsage := max (f64sub usage 600) 0
  let baseEnergy := f64mul baseUsage energyRateRM
  let excessEnergy := f64mul excessUsage energyRateRM
  let capacityRateRM := f64div (toBinary64 rates.domestic.capacity) 100
  let networkRateRM := f64div (toBinary64 rates.domestic.network) 100
  let baseCapacity := f64mul baseUsage capacityRateRM
  let excessCapacity := f64mul excessUsage capacityRateRM
  let baseNetwork := f64mul baseUsage networkRateRM
  let excessNetwork := f64mul excessUsage networkRateRM
  let incentiveRate := toBinary64 (getIncentiveRate usage)
  let baseIncentive := f64mul baseUsage incentiveRate
  let excessIncentive := f64mul excessUsage incentiveRate
  let totalIncentive := f64add baseIncentive excessIncentive
  let retailCharge := if excessUsage > 0 then toBinary64 rates.domestic.retail else 0
  let afaRateRM := f64div afaRate 100
  let baseAFA := if usage > 600 then f64mul baseUsage afaRateRM else 0
  let excessAFA := if usage > 600 then f64mul excessUsage afaRateRM else 0
  let totalAFA := if usage > 600 then f64add baseAFA excessAFA else 0
  let withoutServiceTax :=
    f64add (f64add (f64add (f64add baseEnergy baseCapacity) baseNetwork) baseIncentive) baseAFA
  let withServiceTax :=
    f64add (f64add (f64add (f64add (f64add excessEnergy excessCapacity) excessNetwork)
      retailCharge) excessIncentive) excessAFA
  let currentCharge := f64add withoutServiceTax withServiceTax
  let kwtbbBase :=
    f64add (f64add (f64add (f64add baseEnergy excessEnergy) (f64add baseCapacity excessCapacity))
      (f64add baseNetwork excessNetwork)) (f64add baseIncentive excessIncentive)
  let kwtbb :=
    if usage > 300 then
      f64div (mathRound (f64mul (f64mul kwtbbBase (toBinary64 0.016)) 100)) 100
    else 0
  let sst :=
    if excessUsage > 0 then
      f64div (mathRound (f64mul (f64mul withServiceTax (toBinary64 0.08)) 100)) 100
    else 0
  let grandTotal := f64add (f64add currentCharge kwtbb) sst
  { billAmount := grandTotal
    usageNonService := baseUsage
    usageService := excessUsage
    usageTotal := usage
    energyNonService := baseEnergy
    energyService := excessEnergy
    energyTotal := f64add baseEnergy excessEnergy
    afaNonService := baseAFA
    afaService := excessAFA
    afaTotal := totalAFA
    capacityNonService := baseCapacity
    capacityService := excessCapacity
    capacityTotal := f64add baseCapacity excessCapacity
    networkNonService := baseNetwork
    networkService := excessNetwork
    networkTotal := f64add baseNetwork excessNetwork
    retailService := retailCharge
    incentiveNonService := baseIncentive
    incentiveService := excessIncentive
    incentiveTotal := totalIncentive
    usageChargeNonService := withoutServiceTax
    usageChargeService := withServiceTax
    usageChargeTotal := currentCharge
    serviceTax := sst
    kwtbb := kwtbb
    totalBeforeSolar := grandTotal }

/-! ## Division results

`calculateAtapSavings` and `calculateROI` divide by a value that can be zero.
A JavaScript division by zero does not fail: it yields `Infinity`, `-Infinity`
or `NaN`.  The result of such a division is therefore kept in `JsNumber`; the
sign of zero is not modelled (a zero divisor is taken as `+0`). -/

/-- A JavaScript number that may be non-finite. -/
inductive JsNumber where
  | finite (q : ℚ)
  | posInfinity
  | negInfinity
  | NaN
deriving DecidableEq

/-- JavaScript `a / b` on finite operands. -/
def jsDiv (a b : ℚ) : JsNumber :=
  if b = 0 then
    if a = 0 then JsNumber.NaN
    else if a > 0 then JsNumber.posInfinity else JsNumber.negInfinity
  else JsNumber.finite (a / b)

/-- JavaScript `x * c` for a finite factor `c`. -/
def jsMul (x : JsNumber) (c : ℚ) : JsNumber :=
  match x with
  | JsNumber.finite q => JsNumber.finite (q * c)
  | JsNumber.posInfinity =>
      if c = 0 then JsNumber.NaN
      else if c > 0 then JsNumber.posInfinity else JsNumber.negInfinity
  | JsNumber.negInfinity =>
      if c = 0 then JsNumber.NaN
      else if c > 0 then JsNumber.negInfinity else JsNumber.posInfinity
  | JsNumber.NaN => JsNumber.NaN

/-! ## Solar savings and ROI (script.js, lines 155-233) -/

/-- The function `calculateAfterSolarBill(monthlyUsage, selfConsumptionKwh, afaRate)`. -/
def calculateAfterSolarBill (monthlyUsage selfConsumptionKwh afaRate : ℚ) : Bill :=
  let gridUsageAfterSolar := max 0 (monthlyUsage - selfConsumptionKwh)
  calculateTnbBill gridUsageAfterSolar afaRate

/-- The object returned by `calculateAtapSavings`. -/
structure AtapSavings where
  billWithoutSolar : ℚ
  billWithSolar : ℚ
  finalBill : ℚ
  monthlyUsage : ℚ
  monthlySolarGeneration : ℚ
  selfConsumptionKwh : ℚ
  selfConsumptionPercent : ℚ
  batteryStorageKwh : ℚ
  exportedSolar : ℚ
  directSavings : ℚ
  batterySavings : ℚ
  atapExportCredit : ℚ
  totalSavings : ℚ
  savingsPercentage : JsNumber
  billDetails : Bill
  afterSolarBillDetails : Bill

/-- The function `calculateAtapSavings(monthlyUsage, monthlySolarGeneration,
selfConsumptionPercent, smpRate, afaRate)`.  The source reads the daily stored
solar energy from the page element `stored-solar`; that number is the extra
first argument `storedSolar`. -/
def calculateAtapSavings (storedSolar monthlyUsage monthlySolarGeneration
    selfConsumptionPercent smpRate afaRate : ℚ) : AtapSavings :=
  let selfConsumptionKwh :=
    min monthlySolarGeneration (monthlySolarGeneration * (selfConsumptionPercent / 100))
  let batteryStorageKwh := storedSolar * 30
  let exportedSolar := max 0 (monthlySolarGeneration - selfConsumptionKwh - batteryStorageKwh)
  let billWithoutSolar := calculateTnbBill monthlyUsage afaRate
  let billWithSolar := calculateAfterSolarBill monthlyUsage selfConsumptionKwh afaRate
  let directSavings := billWithoutSolar.billAmount - billWithSolar.billAmount
  let batterySavings := batteryStorageKwh * RETAIL_TARIFF_LOW
  let atapExportCredit := exportedSolar * smpRate
  let totalSavings := directSavings + batterySavings + atapExportCredit
  let finalBill := max 0 (billWithSolar.billAmount - atapExportCredit)
  let savingsPercentage := jsMul (jsDiv totalSavings billWithoutSolar.billAmount) 100
  { billWithoutSolar := billWithoutSolar.billAmount
    billWithSolar := billWithSolar.billAmount
    finalBill := finalBill
    monthlyUsage := monthlyUsage
    monthlySolarGeneration := monthlySolarGeneration
    selfConsumptionKwh := selfConsumptionKwh
    selfConsumptionPercent := selfConsumptionPercent
    batteryStorageKwh := batteryStorageKwh
    exportedSolar := exportedSolar
    directSavings := directSavings
    batterySavings := batterySavings
    atapExportCredit := atapExportCredit
    totalSavings := totalSavings
    savingsPercentage := savingsPercentage
    billDetails := billWithoutSolar
    afterSolarBillDetails := billWithSolar }

/-- The numbers `calculateROI` writes to the ROI table (before `toFixed`). -/
structure RoiTable where
  savingValue : ℚ
  annualSavings : ℚ
  roiYears : JsNumber
  roiMonths : JsNumber

/-- The function `calculateROI()`.  The source reads `sellingPrice` from the
input `selling-price` and `savingValue` from the element `saving-value-total`;
both are arguments here. -/
def calculateROI (sellingPrice savingValue : ℚ) : RoiTable :=
  let annualSavings := savingValue * 12
  let roiYears := jsDiv sellingPrice annualSavings
  let roiMonths := jsMul roiYears 12
  { savingValue := savingValue
    annualSavings := annualSavings
    roiYears := roiYears
    roiMonths := roiMonths }

/-- The function `calculateIncentiveUnitCost(afterSolarBillDetails)`: the one
division of the script that is guarded against a zero divisor. -/
def calculateIncentiveUnitCost (afterSolarBillDetails : Bill) : ℚ :=
  if afterSolarBillDetails.usageTotal > 0 then
    afterSolarBillDetails.incentiveTotal / afterSolarBillDetails.usageTotal
  else 0

/-! ## Bill / kWh conversion (script.js, lines 288-326 and 616-618) -/

/-- The function `getTariffRate(monthlyUsage)`. -/
def getTariffRate (monthlyUsage : ℚ) : ℚ :=
  if monthlyUsage > 1500 then RETAIL_TARIFF_HIGH else RETAIL_TARIFF_LOW

/-- The function `getTariffRateFromBill(bill)`. -/
def getTariffRateFromBill (bill : ℚ) : ℚ :=
  if bill ≤ 664.5 then RETAIL_TARIFF_LOW else RETAIL_TARIFF_HIGH

/-- The `monthly-usage` input handler: `monthlyBill = monthlyUsage * tariffRate`
with `tariffRate = getTariffRate(monthlyUsage)`. -/
def monthlyBillOfUsage (monthlyUsage : ℚ) : ℚ :=
  let tariffRate := getTariffRate monthlyUsage
  monthlyUsage * tariffRate

/-- The `monthly-bill` input handler: `monthlyUsage = monthlyBill / tariffRate`
with `tariffRate = getTariffRateFromBill(monthlyBill)`; both rates are non-zero
constants. -/
def monthlyUsageOfBill (monthlyBill : ℚ) : ℚ :=
  let tariffRate := getTariffRateFromBill monthlyBill
  monthlyBill / tariffRate

/-! ## Helper lemmas -/

/-- `Math.round` of a value whose half-shifted floor is known. -/
theorem mathRound_eq_of_bounds (x : ℚ) (z : ℤ) (h1 : (z : ℚ) ≤ x + 1 / 2)
    (h2 : x + 1 / 2 < z + 1) : mathRound x = z := by
  unfold mathRound
  have : ⌊x + 1 / 2⌋ = z := Int.floor_eq_iff.mpr ⟨h1, h2⟩
  rw [this]

/-- Below the 600 kWh split the excess usage is zero. -/
theorem excess_eq_zero {usage : ℚ} (h : usage ≤ 600) : max (usage - 600) 0 = 0 :=
  max_eq_right (by linarith)

/-- Base plus excess usage is the whole usage. -/
theorem base_add_excess (usage : ℚ) : min usage 600 + max (usage - 600) 0 = usage := by
  rcases le_total usage 600 with h | h
  · rw [min_eq_left h, max_eq_right (by linarith)]; ring
  · rw [min_eq_right h, max_eq_left (by linarith)]; ring

/-- The scan returns the rate of a range that contains `usage` when every
earlier range misses it. -/
theorem scanRanges_first (usage : ℚ) (before : List IncentiveRange) (range : IncentiveRange)
    (after : List IncentiveRange) (hb : ∀ q ∈ before, ¬ inRange usage q)
    (hr : inRange usage range) :
    scanRanges (before ++ range :: after) usage = range.rate := by
  induction before with
  | nil => simp [scanRanges, hr]
  | cons q qs ih =>
    have hq : ¬ inRange usage q := hb q (List.mem_cons_self q qs)
    have hqs : ∀ s ∈ qs, ¬ inRange usage s := fun s hs => hb s (List.mem_cons_of_mem q hs)
    simp [scanRanges, hq, ih hqs]

/-- The scan returns `0` when no range contains `usage`. -/
theorem scanRanges_none (usage : ℚ) (table : List IncentiveRange)
    (h : ∀ q ∈ table, ¬ inRange usage q) : scanRanges table usage = 0 := by
  induction table with
  | nil => rfl
  | cons q qs ih =>
    have hq : ¬ inRange usage q := h q (List.mem_cons_self q qs)
    have hqs : ∀ s ∈ qs, ¬ inRange usage s := fun s hs => h s (List.mem_cons_of_mem q hs)
    simp [scanRanges, hq, ih hqs]

/-- The scan returns the rate of some range of the table that contains `usage`,
if there is one. -/
theorem scanRanges_mem (usage : ℚ) (table : List IncentiveRange) (range : IncentiveRange)
    (hm : range ∈ table) (hr : inRange usage range) :
    ∃ q ∈ table, inRange usage q ∧ scanRanges table usage = q.rate := by
  induction table with
  | nil => simp at hm
  | cons q qs ih =>
    by_cases hq : inRange usage q
    · exact ⟨q, List.mem_cons_self q qs, hq, by simp [scanRanges, hq]⟩
    · have hm2 : range ∈ qs := by
        rcases List.mem_cons.mp hm with h | h
        · exact absurd (h ▸ hr) hq
        · exact h
      obtain ⟨s, hs, hsr, hse⟩ := ih hm2
      exact ⟨s, List.mem_cons_of_mem q hs, hsr, by simp [scanRanges, hq, hse]⟩

/-- Every range of the table lies inside `[1, 1000]` and has a negative rate. -/
theorem incentiveRates_bounds (range : IncentiveRange) (h : range ∈ incentiveRates) :
    1 ≤ range.min ∧ range.max ≤ 1000 ∧ range.rate < 0 := by
  simp only [incentiveRates, List.mem_cons, List.mem_singleton, List.not_mem_nil, or_false] at h
  rcases h with h | h | h | h | h | h | h | h | h | h | h | h | h | h | h | h <;>
    subst h <;> norm_num


/-- The table is sorted ascending with gaps between the ranges: each range ends
strictly before every later one starts. -/
theorem incentiveRates_sorted :
    incentiveRates.Pairwise (fun a b => a.max < b.min) := by
  simp only [incentiveRates, List.pairwise_cons, List.mem_cons, List.mem_singleton,
    List.not_mem_nil, forall_eq_or_imp, List.Pairwise.nil]
  norm_num

/-- At most one range of the table contains a given usage. -/
theorem incentiveRates_disjoint (usage : ℚ) (r s : IncentiveRange) (hr : r ∈ incentiveRates)
    (hs : s ∈ incentiveRates) (hru : inRange usage r) (hsu : inRange usage s) : r = s := by
  by_contra hne
  have hsym : Symmetric (fun a b : IncentiveRange => a.max < b.min ∨ b.max < a.min) :=
    fun a b hab => hab.symm
  have hp : incentiveRates.Pairwise (fun a b => a.max < b.min ∨ b.max < a.min) :=
    incentiveRates_sorted.imp (fun hab => Or.inl hab)
  have := hp.forall hsym hr hs hne
  unfold inRange at hru hsu
  rcases this with h | h <;> linarith [hru.1, hru.2, hsu.1, hsu.2]

/-- Every whole number of kWh from 1 to 1000 lies in some range of the table. -/
theorem incentiveRates_cover_whole (n : ℤ) (h1 : 1 ≤ n) (h2 : n ≤ 1000) :
    ∃ r ∈ incentiveRates, inRange (n : ℚ) r := by
  by_contra hne
  push_neg at hne
  simp only [incentiveRates, List.mem_cons, List.mem_singleton, List.not_mem_nil, or_false,
    forall_eq_or_imp, forall_eq, inRange, ge_iff_le, not_and, not_le] at hne
  norm_cast at hne
  omega


/-- `Math.round(259.44) = 259`. -/
theorem mathRound_kwtbb_500 : mathRound (6486 / 25) = 259 := by
  have := mathRound_eq_of_bounds (6486 / 25) 259 (by norm_num) (by norm_num)
  simpa using this

/-- `Math.round(1567.584) = 1568`. -/
theorem mathRound_kwtbb_1800 : mathRound (195948 / 125) = 1568 := by
  have := mathRound_eq_of_bounds (195948 / 125) 1568 (by norm_num) (by norm_num)
  simpa using this

/-- `Math.round(5593.28) = 5593`. -/
theorem mathRound_sst_1800 : mathRound (139832 / 25) = 5593 := by
  have := mathRound_eq_of_bounds (139832 / 25) 5593 (by norm_num) (by norm_num)
  simpa using this


/-- `Math.round` is monotone. -/
theorem mathRound_mono {x y : ℚ} (h : x ≤ y) : mathRound x ≤ mathRound y := by
  unfold mathRound
  exact_mod_cast Int.floor_mono (by linarith : x + 1 / 2 ≤ y + 1 / 2)

/-- `Math.round` of a non-negative number is non-negative. -/
theorem mathRound_nonneg {x : ℚ} (h : 0 ≤ x) : 0 ≤ mathRound x := by
  unfold mathRound
  exact_mod_cast Int.floor_nonneg.mpr (by linarith : (0 : ℚ) ≤ x + 1 / 2)

/-- The excess usage is positive exactly above 600 kWh. -/
theorem excess_pos_iff (usage : ℚ) : max (usage - 600) 0 > 0 ↔ usage > 600 := by
  constructor
  · intro h
    by_contra hn
    rw [excess_eq_zero (not_lt.mp hn)] at h
    exact lt_irrefl _ h
  · intro h
    exact lt_of_lt_of_le (by linarith) (le_max_left _ _)

/-- The rates of the table ascend with the ranges. -/
theorem incentiveRates_rates_sorted :
    incentiveRates.Pairwise (fun a b => a.max < b.min ∧ a.rate ≤ b.rate) := by
  simp only [incentiveRates, List.pairwise_cons, List.mem_cons, List.mem_singleton,
    List.not_mem_nil, forall_eq_or_imp, List.Pairwise.nil]
  norm_num

/-- The lookup returns the rate of any range of the table that contains the usage. -/
theorem getIncentiveRate_of_mem (usage : ℚ) (r : IncentiveRange) (hr : r ∈ incentiveRates)
    (hu : inRange usage r) : getIncentiveRate usage = r.rate := by
  obtain ⟨q, hq, hqu, hqe⟩ := scanRanges_mem usage incentiveRates r hr hu
  have : q = r := incentiveRates_disjoint usage q r hq hr hqu hu
  unfold getIncentiveRate
  rw [hqe, this]

/-- The lookup is `0` or the rate of a range of the table. -/
theorem getIncentiveRate_cases (usage : ℚ) :
    getIncentiveRate usage = 0 ∨ ∃ r ∈ incentiveRates, inRange usage r ∧
      getIncentiveRate usage = r.rate := by
  by_cases h : ∃ r ∈ incentiveRates, inRange usage r
  · obtain ⟨r, hr, hu⟩ := h
    exact Or.inr ⟨r, hr, hu, getIncentiveRate_of_mem usage r hr hu⟩
  · push_neg at h
    exact Or.inl (scanRanges_none usage incentiveRates h)

/-- Every rate of the table is at least `-0.25`. -/
theorem incentiveRates_rate_ge (range : IncentiveRange) (h : range ∈ incentiveRates) :
    -0.25 ≤ range.rate := by
  simp only [incentiveRates, List.mem_cons, List.mem_singleton, List.not_mem_nil, or_false] at h
  rcases h with h | h | h | h | h | h | h | h | h | h | h | h | h | h | h | h <;>
    subst h <;> norm_num

/-- The lookup lies between `-0.25` and `0`. -/
theorem getIncentiveRate_bounds (usage : ℚ) :
    -0.25 ≤ getIncentiveRate usage ∧ getIncentiveRate usage ≤ 0 := by
  rcases getIncentiveRate_cases usage with h | ⟨r, hr, _, h⟩
  · rw [h]; norm_num
  · rw [h]
    exact ⟨incentiveRates_rate_ge r hr, le_of_lt (incentiveRates_bounds r hr).2.2⟩

/-- On whole kWh from 1 upwards the incentive rate never decreases with usage. -/
theorem getIncentiveRate_mono_whole (m n : ℤ) (h1 : 1 ≤ m) (hmn : m ≤ n) :
    getIncentiveRate (m : ℚ) ≤ getIncentiveRate (n : ℚ) := by
  by_cases hn : n ≤ 1000
  · obtain ⟨r, hr, hrm⟩ := incentiveRates_cover_whole m h1 (le_trans hmn hn)
    obtain ⟨s, hs, hsn⟩ := incentiveRates_cover_whole n (le_trans h1 hmn) hn
    rw [getIncentiveRate_of_mem _ r hr hrm, getIncentiveRate_of_mem _ s hs hsn]
    by_cases hrs : r = s
    · rw [hrs]
    · have hsym : Symmetric (fun a b : IncentiveRange =>
          (a.max < b.min ∧ a.rate ≤ b.rate) ∨ (b.max < a.min ∧ b.rate ≤ a.rate)) :=
        fun a b hab => hab.symm
      have hp : incentiveRates.Pairwise (fun a b =>
          (a.max < b.min ∧ a.rate ≤ b.rate) ∨ (b.max < a.min ∧ b.rate ≤ a.rate)) :=
        incentiveRates_rates_sorted.imp (fun hab => Or.inl hab)
      have hq : (m : ℚ) ≤ n := by exact_mod_cast hmn
      unfold inRange at hrm hsn
      rcases hp.forall hsym hr hs hrs with h | h
      · exact h.2
      · exfalso
        linarith [h.1, hrm.1, hsn.2]
  · have hz : getIncentiveRate (n : ℚ) = 0 := by
      apply scanRanges_none
      intro q hq hin
      have hb := incentiveRates_bounds q hq
      unfold inRange at hin
      have : (1000 : ℚ) < n := by exact_mod_cast not_le.mp hn
      linarith [hin.2, hb.2.1]
    rw [hz]
    exact (getIncentiveRate_bounds _).2

/-- A product of a growing non-negative quantity and a growing rate grows. -/
theorem mul_rate_mono {b1 b2 r1 r2 : ℚ} (hb1 : 0 ≤ b1) (hb : b1 ≤ b2) (hr2 : 0 ≤ r2)
    (hr : b1 = 0 ∨ r1 ≤ r2) : b1 * r1 ≤ b2 * r2 := by
  rcases hr with h | h
  · rw [h, zero_mul]; exact mul_nonneg (le_trans hb1 hb) hr2
  · calc b1 * r1 ≤ b1 * r2 := mul_le_mul_of_nonneg_left h hb1
      _ ≤ b2 * r2 := mul_le_mul_of_nonneg_right hb hr2

/-- The net rate per kWh (energy, capacity, network and incentive) is positive. -/
theorem unitRate_pos (u : ℚ) :
    0 < (if u > 1500 then rates.domestic.energyHigh else rates.domestic.energy) / 100 +
      rates.domestic.capacity / 100 + rates.domestic.network / 100 + getIncentiveRate u := by
  have hb := (getIncentiveRate_bounds u).1
  simp only [rates]
  split_ifs <;> norm_num at hb ⊢ <;> linarith

/-- On whole kWh from 1 upwards the net rate per kWh never decreases with usage. -/
theorem unitRate_mono_whole (m n : ℤ) (h1 : 1 ≤ m) (hmn : m ≤ n) :
    (if (m : ℚ) > 1500 then rates.domestic.energyHigh else rates.domestic.energy) / 100 +
        rates.domestic.capacity / 100 + rates.domestic.network / 100 + getIncentiveRate m ≤
      (if (n : ℚ) > 1500 then rates.domestic.energyHigh else rates.domestic.energy) / 100 +
        rates.domestic.capacity / 100 + rates.domestic.network / 100 + getIncentiveRate n := by
  have hi := getIncentiveRate_mono_whole m n h1 hmn
  have hq : (m : ℚ) ≤ n := by exact_mod_cast hmn
  simp only [rates]
  split_ifs with ha hb hb
  · linarith
  · exfalso; linarith
  · norm_num; linarith
  · linarith

/-- A non-negative quantity that grows with the usage, charged at the net rate,
gives a charge that grows with whole-kWh usage. -/
theorem core_charge_mono (u1 u2 : ℤ) (h0 : 0 ≤ u1) (h12 : u1 ≤ u2) (b1 b2 : ℚ)
    (hb1 : 0 ≤ b1) (hb : b1 ≤ b2) (hz : u1 = 0 → b1 = 0) :
    b1 * ((if (u1 : ℚ) > 1500 then rates.domestic.energyHigh else rates.domestic.energy) / 100 +
        rates.domestic.capacity / 100 + rates.domestic.network / 100 + getIncentiveRate u1) ≤
      b2 * ((if (u2 : ℚ) > 1500 then rates.domestic.energyHigh else rates.domestic.energy) / 100 +
        rates.domestic.capacity / 100 + rates.domestic.network / 100 + getIncentiveRate u2) := by
  apply mul_rate_mono hb1 hb (le_of_lt (unitRate_pos _))
  by_cases h : u1 = 0
  · exact Or.inl (hz h)
  · exact Or.inr (unitRate_mono_whole u1 u2 (by omega) h12)

/-- Base usage `min(usage, 600)` of whole-kWh usages. -/
theorem base_facts (u1 u2 : ℤ) (h0 : 0 ≤ u1) (h12 : u1 ≤ u2) :
    0 ≤ min (u1 : ℚ) 600 ∧ min (u1 : ℚ) 600 ≤ min (u2 : ℚ) 600 ∧
      (u1 = 0 → min (u1 : ℚ) 600 = 0) := by
  have hq0 : (0 : ℚ) ≤ u1 := by exact_mod_cast h0
  have hq : (u1 : ℚ) ≤ u2 := by exact_mod_cast h12
  refine ⟨le_min hq0 (by norm_num), min_le_min hq (le_refl _), ?_⟩
  intro h
  rw [h]
  norm_num

/-- Excess usage `max(usage - 600, 0)` of whole-kWh usages. -/
theorem excess_facts (u1 u2 : ℤ) (h12 : u1 ≤ u2) :
    0 ≤ max ((u1 : ℚ) - 600) 0 ∧ max ((u1 : ℚ) - 600) 0 ≤ max ((u2 : ℚ) - 600) 0 ∧
      (u1 = 0 → max ((u1 : ℚ) - 600) 0 = 0) := by
  have hq : (u1 : ℚ) ≤ u2 := by exact_mod_cast h12
  refine ⟨le_max_right _ _, max_le_max (by linarith) (le_refl _), ?_⟩
  intro h
  rw [h]
  norm_num

/-- The KWTBB levy grows with whole-kWh usage. -/
theorem kwtbb_mono_whole (u1 u2 : ℤ) (afaRate : ℚ) (h0 : 0 ≤ u1) (h12 : u1 ≤ u2) :
    (calculateTnbBill u1 afaRate).kwtbb ≤ (calculateTnbBill u2 afaRate).kwtbb := by
  obtain ⟨hb0, hb, hbz⟩ := base_facts u1 u2 h0 h12
  obtain ⟨hx0, hx, hxz⟩ := excess_facts u1 u2 h12
  have hP := core_charge_mono u1 u2 h0 h12 _ _ hb0 hb hbz
  have hQ := core_charge_mono u1 u2 h0 h12 _ _ hx0 hx hxz
  have hP2 := mul_nonneg (le_trans hb0 hb) (le_of_lt (unitRate_pos (u2 : ℚ)))
  have hQ2 := mul_nonneg (le_trans hx0 hx) (le_of_lt (unitRate_pos (u2 : ℚ)))
  have hq : (u1 : ℚ) ≤ u2 := by exact_mod_cast h12
  simp only [calculateTnbBill]
  generalize (if (u1 : ℚ) > 1500 then rates.domestic.energyHigh else rates.domestic.energy)
    = E1 at hP hQ ⊢
  generalize (if (u2 : ℚ) > 1500 then rates.domestic.energyHigh else rates.domestic.energy)
    = E2 at hP hQ hP2 hQ2 ⊢
  by_cases h1 : (u1 : ℚ) > 300 <;> by_cases h2 : (u2 : ℚ) > 300
  · rw [if_pos h1, if_pos h2]
    apply div_le_div_of_nonneg_right (mathRound_mono ?_) (by norm_num)
    linarith
  · exfalso; linarith
  · rw [if_neg h1, if_pos h2]
    apply div_nonneg (mathRound_nonneg ?_) (by norm_num)
    linarith
  · rw [if_neg h1, if_neg h2]

/-- The non-service usage charge grows with whole-kWh usage when the AFA rate is
not negative. -/
theorem nonService_charge_mono_whole (u1 u2 : ℤ) (afaRate : ℚ) (h0 : 0 ≤ u1) (h12 : u1 ≤ u2)
    (ha : 0 ≤ afaRate) :
    (calculateTnbBill u1 afaRate).usageChargeNonService ≤
      (calculateTnbBill u2 afaRate).usageChargeNonService := by
  obtain ⟨hb0, hb, hbz⟩ := base_facts u1 u2 h0 h12
  have hP := core_charge_mono u1 u2 h0 h12 _ _ hb0 hb hbz
  have hq : (u1 : ℚ) ≤ u2 := by exact_mod_cast h12
  have ha100 : 0 ≤ afaRate / 100 := div_nonneg ha (by norm_num)
  have hA1 := mul_le_mul_of_nonneg_right hb ha100
  have hA2 := mul_nonneg (le_trans hb0 hb) ha100
  simp only [calculateTnbBill]
  generalize (if (u1 : ℚ) > 1500 then rates.domestic.energyHigh else rates.domestic.energy)
    = E1 at hP ⊢
  generalize (if (u2 : ℚ) > 1500 then rates.domestic.energyHigh else rates.domestic.energy)
    = E2 at hP ⊢
  by_cases h1 : (u1 : ℚ) > 600 <;> by_cases h2 : (u2 : ℚ) > 600
  · rw [if_pos h1, if_pos h2]; linarith
  · exfalso; linarith
  · rw [if_neg h1, if_pos h2]; linarith
  · rw [if_neg h1, if_neg h2]; linarith

/-- The service usage charge grows with whole-kWh usage when the AFA rate is not
negative, and it is never negative. -/
theorem service_charge_mono_whole (u1 u2 : ℤ) (afaRate : ℚ) (h0 : 0 ≤ u1) (h12 : u1 ≤ u2)
    (ha : 0 ≤ afaRate) :
    (calculateTnbBill u1 afaRate).usageChargeService ≤
        (calculateTnbBill u2 afaRate).usageChargeService ∧
      0 ≤ (calculateTnbBill u2 afaRate).usageChargeService := by
  obtain ⟨hx0, hx, hxz⟩ := excess_facts u1 u2 h12
  have hQ := core_charge_mono u1 u2 h0 h12 _ _ hx0 hx hxz
  have hQ2 := mul_nonneg (le_trans hx0 hx) (le_of_lt (unitRate_pos (u2 : ℚ)))
  have hq : (u1 : ℚ) ≤ u2 := by exact_mod_cast h12
  have ha100 : 0 ≤ afaRate / 100 := div_nonneg ha (by norm_num)
  have hA1 := mul_le_mul_of_nonneg_right hx ha100
  have hA2 := mul_nonneg (le_trans hx0 hx) ha100
  have hret : (0 : ℚ) ≤ rates.domestic.retail := by norm_num [rates]
  simp only [calculateTnbBill]
  generalize (if (u1 : ℚ) > 1500 then rates.domestic.energyHigh else rates.domestic.energy)
    = E1 at hQ ⊢
  generalize (if (u2 : ℚ) > 1500 then rates.domestic.energyHigh else rates.domestic.energy)
    = E2 at hQ hQ2 ⊢
  by_cases h1 : (u1 : ℚ) > 600 <;> by_cases h2 : (u2 : ℚ) > 600
  · rw [if_pos ((excess_pos_iff _).mpr h1), if_pos ((excess_pos_iff _).mpr h2), if_pos h1,
      if_pos h2]
    constructor <;> linarith
  · exfalso; linarith
  · rw [if_neg (fun h => h1 ((excess_pos_iff _).mp h)), if_pos ((excess_pos_iff _).mpr h2),
      if_neg h1, if_pos h2]
    rw [excess_eq_zero (not_lt.mp h1)] at hQ ⊢
    constructor <;> linarith
  · rw [if_neg (fun h => h1 ((excess_pos_iff _).mp h)),
      if_neg (fun h => h2 ((excess_pos_iff _).mp h)), if_neg h1, if_neg h2]
    constructor <;> linarith

/-- The service tax grows with whole-kWh usage when the AFA rate is not negative. -/
theorem serviceTax_mono_whole (u1 u2 : ℤ) (afaRate : ℚ) (h0 : 0 ≤ u1) (h12 : u1 ≤ u2)
    (ha : 0 ≤ afaRate) :
    (calculateTnbBill u1 afaRate).serviceTax ≤ (calculateTnbBill u2 afaRate).serviceTax := by
  obtain ⟨hW, hW2⟩ := service_charge_mono_whole u1 u2 afaRate h0 h12 ha
  have hq : (u1 : ℚ) ≤ u2 := by exact_mod_cast h12
  have e : ∀ u : ℚ, (calculateTnbBill u afaRate).serviceTax =
      if max (u - 600) 0 > 0 then
        mathRound ((calculateTnbBill u afaRate).usageChargeService * 0.08 * 100) / 100
      else 0 := fun _ => rfl
  rw [e, e]
  by_cases h1 : (u1 : ℚ) > 600 <;> by_cases h2 : (u2 : ℚ) > 600
  · rw [if_pos ((excess_pos_iff _).mpr h1), if_pos ((excess_pos_iff _).mpr h2)]
    apply div_le_div_of_nonneg_right (mathRound_mono ?_) (by norm_num)
    linarith
  · exfalso; linarith
  · rw [if_neg (fun h => h1 ((excess_pos_iff _).mp h)), if_pos ((excess_pos_iff _).mpr h2)]
    apply div_nonneg (mathRound_nonneg ?_) (by norm_num)
    linarith
  · rw [if_neg (fun h => h1 ((excess_pos_iff _).mp h)),
      if_neg (fun h => h2 ((excess_pos_iff _).mp h))]

/-- A number within half a unit of an integer rounds to that integer. -/
theorem roundHalfEven_eq_of_near (x : ℚ) (m : ℤ) (h : |x - m| < 1 / 2) :
    roundHalfEven x = m := by
  rw [abs_lt] at h
  unfold roundHalfEven
  by_cases hm : (m : ℚ) ≤ x
  · have hf : ⌊x⌋ = m := Int.floor_eq_iff.mpr ⟨hm, by linarith [h.2]⟩
    simp only [hf]
    rw [if_pos (by linarith [h.2])]
  · have hf : ⌊x⌋ = m - 1 :=
      Int.floor_eq_iff.mpr ⟨by push_cast; linarith [h.1], by push_cast; linarith⟩
    simp only [hf]
    have h1 : ¬ (x - ((m - 1 : ℤ) : ℚ) < 1 / 2) := by push_cast; linarith [h.1]
    have h2 : x - ((m - 1 : ℤ) : ℚ) > 1 / 2 := by push_cast; linarith [h.1]
    rw [if_neg h1, if_pos h2]
    ring

/-- Zero is a binary64 value. -/
theorem toBinary64_zero : toBinary64 0 = 0 := by
  simp [toBinary64]

/-- The binary64 value of a non-zero `x` whose magnitude lies in the binade
`[2^(k+52), 2^(k+53))`: the multiple `m * 2^k` less than half a step away. -/
theorem toBinary64_eq_of_abs (x y : ℚ) (k m : ℤ) (hx : x ≠ 0) (hy : y = m * (2 : ℚ) ^ k)
    (hlo : (2 : ℚ) ^ (k + 52) ≤ |x|) (hhi : |x| < (2 : ℚ) ^ (k + 53))
    (h1 : y - (2 : ℚ) ^ k / 2 < x) (h2 : x < y + (2 : ℚ) ^ k / 2) : toBinary64 x = y := by
  have hax : 0 < |x| := abs_pos.mpr hx
  have hlog : Int.log 2 |x| = k + 52 := by
    have h3 : k + 52 ≤ Int.log 2 |x| :=
      (Int.zpow_le_iff_le_log (by norm_num) hax).mp (by exact_mod_cast hlo)
    have h4 : Int.log 2 |x| < k + 53 :=
      (Int.lt_zpow_iff_log_lt (by norm_num) hax).mp (by exact_mod_cast hhi)
    omega
  have hpos : (0 : ℚ) < 2 ^ k := zpow_pos (by norm_num) k
  have hr : roundHalfEven (x / 2 ^ k) = m := by
    apply roundHalfEven_eq_of_near
    have e : x / 2 ^ k - m = (x - m * 2 ^ k) / 2 ^ k := by
      rw [sub_div, mul_div_assoc, div_self (ne_of_gt hpos), mul_one]
    rw [e, abs_div, abs_of_pos hpos, div_lt_iff₀ hpos, abs_lt]
    rw [hy] at h1 h2
    constructor <;> linarith
  unfold toBinary64
  rw [if_neg hx]
  simp only [hlog, add_sub_cancel_right]
  rw [hr, hy]

/-- The binary64 value of a positive `x`. -/
theorem toBinary64_eq_of_near (x y : ℚ) (k m : ℤ) (hx : 0 < x) (hy : y = m * (2 : ℚ) ^ k)
    (hlo : (2 : ℚ) ^ (k + 52) ≤ x) (hhi : x < (2 : ℚ) ^ (k + 53))
    (h1 : y - (2 : ℚ) ^ k / 2 < x) (h2 : x < y + (2 : ℚ) ^ k / 2) : toBinary64 x = y := by
  have ha : |x| = x := abs_of_pos hx
  exact toBinary64_eq_of_abs x y k m (ne_of_gt hx) hy (by rw [ha]; exact hlo)
    (by rw [ha]; exact hhi) h1 h2

/-- The binary64 value of a negative `x`. -/
theorem toBinary64_eq_of_near_neg (x y : ℚ) (k m : ℤ) (hx : x < 0) (hy : y = m * (2 : ℚ) ^ k)
    (hlo : (2 : ℚ) ^ (k + 52) ≤ -x) (hhi : -x < (2 : ℚ) ^ (k + 53))
    (h1 : y - (2 : ℚ) ^ k / 2 < x) (h2 : x < y + (2 : ℚ) ^ k / 2) : toBinary64 x = y := by
  have ha : |x| = -x := abs_of_neg hx
  exact toBinary64_eq_of_abs x y k m (ne_of_lt hx) hy (by rw [ha]; exact hlo)
    (by rw [ha]; exact hhi) h1 h2

/-- A number exactly half a unit from an even integer rounds to that integer. -/
theorem roundHalfEven_eq_of_tie (x : ℚ) (m : ℤ) (hm : m % 2 = 0)
    (h : x = m + 1 / 2 ∨ x = m - 1 / 2) : roundHalfEven x = m := by
  unfold roundHalfEven
  rcases h with h | h
  · have hf : ⌊x⌋ = m := Int.floor_eq_iff.mpr ⟨by linarith, by linarith⟩
    simp only [hf]
    have h1 : ¬ (x - (m : ℚ) < 1 / 2) := by linarith
    have h2 : ¬ (x - (m : ℚ) > 1 / 2) := by linarith
    rw [if_neg h1, if_neg h2, if_pos hm]
  · have hf : ⌊x⌋ = m - 1 :=
      Int.floor_eq_iff.mpr ⟨by push_cast; linarith, by push_cast; linarith⟩
    simp only [hf]
    have h1 : ¬ (x - ((m - 1 : ℤ) : ℚ) < 1 / 2) := by push_cast; linarith
    have h2 : ¬ (x - ((m - 1 : ℤ) : ℚ) > 1 / 2) := by push_cast; linarith
    have h3 : ¬ ((m - 1) % 2 = 0) := by omega
    rw [if_neg h1, if_neg h2, if_neg h3]
    ring

/-- The binary64 value of a positive `x` that lies exactly between two
neighbouring binary64 values: the one with the even significand. -/
theorem toBinary64_eq_of_tie (x y : ℚ) (k m : ℤ) (hx : 0 < x) (hy : y = m * (2 : ℚ) ^ k)
    (hm : m % 2 = 0) (hlo : (2 : ℚ) ^ (k + 52) ≤ x) (hhi : x < (2 : ℚ) ^ (k + 53))
    (h : x = y + (2 : ℚ) ^ k / 2 ∨ x = y - (2 : ℚ) ^ k / 2) : toBinary64 x = y := by
  have hlog : Int.log 2 |x| = k + 52 := by
    rw [abs_of_pos hx]
    have h3 : k + 52 ≤ Int.log 2 x :=
      (Int.zpow_le_iff_le_log (by norm_num) hx).mp (by exact_mod_cast hlo)
    have h4 : Int.log 2 x < k + 53 :=
      (Int.lt_zpow_iff_log_lt (by norm_num) hx).mp (by exact_mod_cast hhi)
    omega
  have hpos : (0 : ℚ) < 2 ^ k := zpow_pos (by norm_num) k
  have hr : roundHalfEven (x / 2 ^ k) = m := by
    apply roundHalfEven_eq_of_tie _ _ hm
    rw [hy] at h
    rcases h with h | h
    · left
      rw [h]
      field_simp
      ring
    · right
      rw [h]
      field_simp
      ring
  unfold toBinary64
  rw [if_neg (ne_of_gt hx)]
  simp only [hlog, add_sub_cancel_right]
  rw [hr, hy]

/-! ## Claims -/

/-- C1: for every usage and AFA rate the grand total `billAmount` equals
`usageChargeTotal + kwtbb + serviceTax`, and equals the sum of the itemised
fields `energyTotal + capacityTotal + networkTotal + incentiveTotal + afaTotal +
retailService + kwtbb + serviceTax`. -/
theorem billAmount_eq_itemized_sum (usage afaRate : ℚ) :
    (calculateTnbBill usage afaRate).billAmount =
        (calculateTnbBill usage afaRate).usageChargeTotal +
          (calculateTnbBill usage afaRate).kwtbb +
          (calculateTnbBill usage afaRate).serviceTax ∧
      (calculateTnbBill usage afaRate).billAmount =
        (calculateTnbBill usage afaRate).energyTotal +
          (calculateTnbBill usage afaRate).capacityTotal +
          (calculateTnbBill usage afaRate).networkTotal +
          (calculateTnbBill usage afaRate).incentiveTotal +
          (calculateTnbBill usage afaRate).afaTotal +
          (calculateTnbBill usage afaRate).retailService +
          (calculateTnbBill usage afaRate).kwtbb +
          (calculateTnbBill usage afaRate).serviceTax := by
  refine ⟨rfl, ?_⟩
  simp only [calculateTnbBill]
  by_cases h : usage > 600
  · simp only [h, if_true]; ring
  · simp only [h, if_false]; ring

/-- C2: for every usage `<= 600` and every AFA rate, `usageService` (the
excess), `serviceTax` and `retailService` are `0`, and `kwtbb` is `0` whenever
usage `<= 300`. -/
theorem no_service_items_upto_600 (usage afaRate : ℚ) (h : usage ≤ 600) :
    (calculateTnbBill usage afaRate).usageService = 0 ∧
      (calculateTnbBill usage afaRate).serviceTax = 0 ∧
      (calculateTnbBill usage afaRate).retailService = 0 ∧
      (usage ≤ 300 → (calculateTnbBill usage afaRate).kwtbb = 0) := by
  have hex : max (usage - 600) 0 = 0 := excess_eq_zero h
  refine ⟨?_, ?_, ?_, ?_⟩
  · simp only [calculateTnbBill, hex]
  · simp [calculateTnbBill, hex]
  · simp [calculateTnbBill, hex]
  · intro h3
    have : ¬ usage > 300 := not_lt.mpr h3
    simp only [calculateTnbBill, this, if_false]

/-- Witness for C2 at usage 250 kWh, AFA 3 sen. -/
theorem no_service_items_upto_600_witness :
    (250 : ℚ) ≤ 600 ∧ (250 : ℚ) ≤ 300 ∧
      (calculateTnbBill 250 3).usageService = 0 ∧
      (calculateTnbBill 250 3).serviceTax = 0 ∧
      (calculateTnbBill 250 3).retailService = 0 ∧
      (calculateTnbBill 250 3).kwtbb = 0 :=
  ⟨by norm_num, by norm_num,
    (no_service_items_upto_600 250 3 (by norm_num)).1,
    (no_service_items_upto_600 250 3 (by norm_num)).2.1,
    (no_service_items_upto_600 250 3 (by norm_num)).2.2.1,
    (no_service_items_upto_600 250 3 (by norm_num)).2.2.2 (by norm_num)⟩

/-- C3: for every AFA rate, `calculateTnbBill(0, afaRate)` has a grand total
`billAmount` of exactly `0`. -/
theorem billAmount_zero_usage (afaRate : ℚ) :
    (calculateTnbBill 0 afaRate).billAmount = 0 := by
  simp [calculateTnbBill]

/-- C4: for every AFA rate and all usages `u1 <= u2`, the `energyTotal` of the
bill for `u1` is at most the `energyTotal` of the bill for `u2`, also across the
600 kWh split and the 1500 kWh rate switch. -/
theorem energyTotal_monotone (afaRate u1 u2 : ℚ) (h : u1 ≤ u2) :
    (calculateTnbBill u1 afaRate).energyTotal ≤ (calculateTnbBill u2 afaRate).energyTotal := by
  have key : ∀ u a : ℚ, (calculateTnbBill u a).energyTotal =
      u * ((if u > 1500 then rates.domestic.energyHigh else rates.domestic.energy) / 100) := by
    intro u a
    simp only [calculateTnbBill]
    rw [← add_mul, base_add_excess]
  rw [key, key]
  simp only [rates]
  by_cases h1 : u1 > 1500
  · have h2 : u2 > 1500 := lt_of_lt_of_le h1 h
    simp only [h1, h2, if_true]
    linarith
  · by_cases h2 : u2 > 1500
    · simp only [h1, h2, if_true, if_false]
      have h1' : u1 ≤ 1500 := not_lt.mp h1
      linarith
    · simp only [h1, h2, if_false]
      linarith

/-- Witness for C4 across the 1500 kWh rate switch. -/
theorem energyTotal_monotone_witness :
    (1500 : ℚ) ≤ 1501 ∧
      (calculateTnbBill 1500 3).energyTotal ≤ (calculateTnbBill 1501 3).energyTotal :=
  ⟨by norm_num, energyTotal_monotone 3 1500 1501 (by norm_num)⟩

/-- C5: `getIncentiveRate(usage)` returns the rate of the first table range with
`min <= usage <= max` (and `0` when no range matches); in particular
`getIncentiveRate(200) = -0.25`, `getIncentiveRate(1000) = -0.005`,
`getIncentiveRate(1001) = 0` and `getIncentiveRate(0) = 0`. -/
theorem getIncentiveRate_first_match :
    (∀ (usage : ℚ) (before : List IncentiveRange) (range : IncentiveRange)
        (after : List IncentiveRange),
        incentiveRates = before ++ range :: after →
        (∀ q ∈ before, ¬ (q.min ≤ usage ∧ usage ≤ q.max)) →
        (range.min ≤ usage ∧ usage ≤ range.max) →
        getIncentiveRate usage = range.rate) ∧
      (∀ usage : ℚ, (∀ q ∈ incentiveRates, ¬ (q.min ≤ usage ∧ usage ≤ q.max)) →
        getIncentiveRate usage = 0) ∧
      getIncentiveRate 200 = -0.25 ∧
      getIncentiveRate 1000 = -0.005 ∧
      getIncentiveRate 1001 = 0 ∧
      getIncentiveRate 0 = 0 := by
  refine ⟨?_, ?_, ?_, ?_, ?_, ?_⟩
  · intro usage before range after hsplit hb hr
    unfold getIncentiveRate
    rw [hsplit]
    exact scanRanges_first usage before range after hb hr
  · intro usage h
    exact scanRanges_none usage incentiveRates h
  · norm_num [getIncentiveRate, incentiveRates, scanRanges, inRange]
  · norm_num [getIncentiveRate, incentiveRates, scanRanges, inRange]
  · norm_num [getIncentiveRate, incentiveRates, scanRanges, inRange]
  · norm_num [getIncentiveRate, incentiveRates, scanRanges, inRange]

/-- Witness for C5: usage 225 misses the first range and lies in the second,
whose rate is returned. -/
theorem getIncentiveRate_first_match_witness :
    incentiveRates =
        [{ min := 1, max := 200, rate := -0.25 }] ++
          ({ min := 201, max := 250, rate := -0.245 } : IncentiveRange) ::
            incentiveRates.drop 2 ∧
      getIncentiveRate 225 = -0.245 :=
  ⟨rfl,
    getIncentiveRate_first_match.1 225 [{ min := 1, max := 200, rate := -0.25 }]
      { min := 201, max := 250, rate := -0.245 } (incentiveRates.drop 2) rfl
      (by intro q hq; rw [List.mem_singleton.mp hq]; norm_num)
      (by norm_num)⟩

/-- C6, as stated, fails: usage 200.5 kWh lies between 1 and 1000 but in no
range of the table (it falls between `max: 200` and `min: 201`), and
`getIncentiveRate(200.5)` is `0`. -/
theorem incentive_gap_counterexample :
    (1 : ℚ) ≤ 200.5 ∧ (200.5 : ℚ) ≤ 1000 ∧
      (∀ r ∈ incentiveRates, ¬ (r.min ≤ 200.5 ∧ (200.5 : ℚ) ≤ r.max)) ∧
      getIncentiveRate 200.5 = 0 := by
  refine ⟨by norm_num, by norm_num, ?_, ?_⟩
  · simp only [incentiveRates, List.mem_cons, List.mem_singleton, List.not_mem_nil, or_false,
      forall_eq_or_imp, forall_eq]
    norm_num
  · norm_num [getIncentiveRate, incentiveRates, scanRanges, inRange]

/-- C6, amended: the ranges of the table are sorted and disjoint, each starts one
kWh after the previous one ends, and every whole number of kWh `n` with
`1 <= n <= 1000` lies in exactly one range, so `getIncentiveRate(n)` is
negative. -/
theorem incentive_table_covers_whole_kwh (n : ℤ) (h1 : 1 ≤ n) (h2 : n ≤ 1000) :
    incentiveRates.Pairwise (fun a b => a.max < b.min) ∧
      incentiveRates.Chain' (fun a b => b.min = a.max + 1) ∧
      (∃! r, r ∈ incentiveRates ∧ r.min ≤ (n : ℚ) ∧ (n : ℚ) ≤ r.max) ∧
      getIncentiveRate n < 0 := by
  obtain ⟨r, hr, hrn⟩ := incentiveRates_cover_whole n h1 h2
  refine ⟨incentiveRates_sorted, ?_, ?_, ?_⟩
  · simp only [incentiveRates, List.chain'_cons, List.chain'_singleton, and_true]
    norm_num
  · exact ⟨r, ⟨hr, hrn⟩, fun s hs => incentiveRates_disjoint n s r hs.1 hr hs.2 hrn⟩
  · obtain ⟨q, hq, _, hqe⟩ := scanRanges_mem n incentiveRates r hr hrn
    unfold getIncentiveRate
    rw [hqe]
    exact (incentiveRates_bounds q hq).2.2

/-- Witness for the amended C6 at 200 kWh. -/
theorem incentive_table_covers_whole_kwh_witness :
    (1 : ℤ) ≤ 200 ∧ (200 : ℤ) ≤ 1000 ∧
      (∃! r, r ∈ incentiveRates ∧ r.min ≤ ((200 : ℤ) : ℚ) ∧ ((200 : ℤ) : ℚ) ≤ r.max) ∧
      getIncentiveRate ((200 : ℤ) : ℚ) < 0 :=
  ⟨by decide, by decide,
    (incentive_table_covers_whole_kwh 200 (by decide) (by decide)).2.2.1,
    (incentive_table_covers_whole_kwh 200 (by decide) (by decide)).2.2.2⟩

/-- C7: for every usage `< 1` or `> 1000`, `getIncentiveRate` returns `0` (it is
a total function, no error is raised), and `calculateTnbBill` reports
`incentiveNonService = incentiveService = incentiveTotal = 0`. -/
theorem incentive_zero_outside_table (usage afaRate : ℚ) (h : usage < 1 ∨ usage > 1000) :
    getIncentiveRate usage = 0 ∧
      (calculateTnbBill usage afaRate).incentiveNonService = 0 ∧
      (calculateTnbBill usage afaRate).incentiveService = 0 ∧
      (calculateTnbBill usage afaRate).incentiveTotal = 0 := by
  have hz : getIncentiveRate usage = 0 := by
    apply scanRanges_none
    intro q hq hin
    have hb := incentiveRates_bounds q hq
    unfold inRange at hin
    rcases h with h | h
    · linarith [hin.1, hb.1]
    · linarith [hin.2, hb.2.1]
  refine ⟨hz, ?_, ?_, ?_⟩ <;> simp [calculateTnbBill, hz]

/-- Witness for C7 at usage 1001 kWh, AFA 3 sen. -/
theorem incentive_zero_outside_table_witness :
    ((1001 : ℚ) < 1 ∨ (1001 : ℚ) > 1000) ∧
      getIncentiveRate 1001 = 0 ∧
      (calculateTnbBill 1001 3).incentiveNonService = 0 ∧
      (calculateTnbBill 1001 3).incentiveService = 0 ∧
      (calculateTnbBill 1001 3).incentiveTotal = 0 :=
  ⟨Or.inr (by norm_num), incentive_zero_outside_table 1001 3 (Or.inr (by norm_num))⟩

/-- C8: scenario usage 500 kWh, AFA 0: `usageNonService = 500`,
`usageService = 0`, `energyTotal = 500 * 0.2703 = 135.15`, `kwtbb` is the
non-zero 2.59 (1.6% of `135.15 + 22.75 + 64.25 - 60.00`, rounded to the cent),
`serviceTax = 0` and `billAmount = 164.74`. -/
theorem scenario_500_afa_0 :
    (calculateTnbBill 500 0).usageNonService = 500 ∧
      (calculateTnbBill 500 0).usageService = 0 ∧
      (calculateTnbBill 500 0).energyTotal = 500 * 0.2703 ∧
      (calculateTnbBill 500 0).energyTotal = 135.15 ∧
      (calculateTnbBill 500 0).kwtbb = 2.59 ∧
      (calculateTnbBill 500 0).kwtbb ≠ 0 ∧
      (calculateTnbBill 500 0).kwtbb =
        mathRound ((135.15 + 22.75 + 64.25 - 60.00) * 0.016 * 100) / 100 ∧
      (calculateTnbBill 500 0).serviceTax = 0 ∧
      (calculateTnbBill 500 0).billAmount = 164.74 := by
  refine ⟨?_, ?_, ?_, ?_, ?_, ?_, ?_, ?_, ?_⟩ <;>
    norm_num [calculateTnbBill, getIncentiveRate, incentiveRates, scanRanges, inRange, rates,
      mathRound_kwtbb_500]

/-- C9: scenario usage 1800 kWh, AFA 3 sen: the high energy rate 0.3703 on both
portions (`energyNonService = 222.18`, `energyService = 444.36`), AFA on both
(`afaNonService = 18`, `afaService = 36`), `incentiveTotal = 0`,
`retailService = 10`, `usageChargeNonService = 344.58`,
`usageChargeService = 699.16`, `kwtbb = 15.68`, `serviceTax = 55.93` and
`billAmount = 1115.35`. -/
theorem scenario_1800_afa_3 :
    (calculateTnbBill 1800 3).energyNonService = 600 * 0.3703 ∧
      (calculateTnbBill 1800 3).energyService = 1200 * 0.3703 ∧
      (calculateTnbBill 1800 3).energyNonService = 222.18 ∧
      (calculateTnbBill 1800 3).energyService = 444.36 ∧
      (calculateTnbBill 1800 3).afaNonService = 18 ∧
      (calculateTnbBill 1800 3).afaService = 36 ∧
      (calculateTnbBill 1800 3).incentiveTotal = 0 ∧
      (calculateTnbBill 1800 3).retailService = 10 ∧
      (calculateTnbBill 1800 3).usageChargeNonService = 344.58 ∧
      (calculateTnbBill 1800 3).usageChargeService = 699.16 ∧
      (calculateTnbBill 1800 3).kwtbb = 15.68 ∧
      (calculateTnbBill 1800 3).serviceTax = 55.93 ∧
      (calculateTnbBill 1800 3).billAmount = 1115.35 := by
  refine ⟨?_, ?_, ?_, ?_, ?_, ?_, ?_, ?_, ?_, ?_, ?_, ?_, ?_⟩ <;>
    norm_num [calculateTnbBill, getIncentiveRate, incentiveRates, scanRanges, inRange, rates,
      mathRound_kwtbb_1800, mathRound_sst_1800]

/-- C10: AFA is gated on total usage.  For usage `<= 600` the three AFA fields
are `0`; for usage `> 600`, `afaNonService = 600 * afaRate / 100`,
`afaService = (usage - 600) * afaRate / 100` and
`afaTotal = usage * afaRate / 100`. -/
theorem afa_gated_on_usage (usage afaRate : ℚ) :
    (usage ≤ 600 →
        (calculateTnbBill usage afaRate).afaNonService = 0 ∧
          (calculateTnbBill usage afaRate).afaService = 0 ∧
          (calculateTnbBill usage afaRate).afaTotal = 0) ∧
      (usage > 600 →
        (calculateTnbBill usage afaRate).afaNonService = 600 * afaRate / 100 ∧
          (calculateTnbBill usage afaRate).afaService = (usage - 600) * afaRate / 100 ∧
          (calculateTnbBill usage afaRate).afaTotal = usage * afaRate / 100) := by
  constructor
  · intro h
    have hn : ¬ usage > 600 := not_lt.mpr h
    simp only [calculateTnbBill, hn, if_false, and_self]
  · intro h
    have hb : min usage 600 = 600 := min_eq_right (le_of_lt h)
    have he : max (usage - 600) 0 = usage - 600 := max_eq_left (by linarith)
    simp only [calculateTnbBill, h, if_true, hb, he]
    refine ⟨by ring, by ring, by ring⟩

/-- Witness for C10: 600 kWh carries no AFA, 601 kWh carries AFA on all 601 kWh. -/
theorem afa_gated_on_usage_witness :
    ((600 : ℚ) ≤ 600 ∧ (calculateTnbBill 600 3).afaTotal = 0) ∧
      ((601 : ℚ) > 600 ∧ (calculateTnbBill 601 3).afaNonService = 600 * 3 / 100 ∧
        (calculateTnbBill 601 3).afaService = (601 - 600) * 3 / 100 ∧
        (calculateTnbBill 601 3).afaTotal = 601 * 3 / 100) :=
  ⟨⟨le_refl _, ((afa_gated_on_usage 600 3).1 (le_refl _)).2.2⟩,
    ⟨by norm_num, (afa_gated_on_usage 601 3).2 (by norm_num)⟩⟩

/-- C11 fails on the code at a half-cent tie.  For 15625 kWh (AFA 0) the KWTBB
base is exactly 8504.6875 in exact arithmetic and in binary64, and 1.6% of it is
136.075, which rounds half up to 136.08.  The binary64 product
`kwtbbBase * 0.016 * 100` is 13607.499999999998, below the tie, so
`Math.round` gives 13607 and `kwtbb` is the binary64 value of 136.07. -/
theorem kwtbb_half_cent_tie_rounds_down :
    (15625 : ℚ) > 300 ∧
      (calculateTnbBill 15625 0).energyTotal + (calculateTnbBill 15625 0).capacityTotal +
          (calculateTnbBill 15625 0).networkTotal + (calculateTnbBill 15625 0).incentiveTotal = 8504.6875 ∧
      (8504.6875 : ℚ) * 0.016 = 136.075 ∧
      (calculateTnbBill 15625 0).kwtbb = 136.08 ∧
      f64add (f64add (f64add (calculateTnbBillBinary64 15625 0).energyTotal
            (calculateTnbBillBinary64 15625 0).capacityTotal)
          (calculateTnbBillBinary64 15625 0).networkTotal)
        (calculateTnbBillBinary64 15625 0).incentiveTotal = 8504.6875 ∧
      f64mul (f64mul 8504.6875 (toBinary64 0.016)) 100 = 7480802237480959 / 549755813888 ∧
      (7480802237480959 / 549755813888 : ℚ) < 13607.5 ∧
      mathRound (7480802237480959 / 549755813888) = 13607 ∧
      (calculateTnbBillBinary64 15625 0).kwtbb = toBinary64 136.07 ∧
      (calculateTnbBillBinary64 15625 0).kwtbb ≠ toBinary64 136.08 ∧
      |(calculateTnbBillBinary64 15625 0).kwtbb - 136.07| < 1 / 10 ^ 12 := by
  have a1 : toBinary64 (15625 : ℚ) = 15625 := by
    exact toBinary64_eq_of_near _ _ (-39) (8589934592000000) (by norm_num) (by norm_num) (by norm_num)
      (by norm_num) (by norm_num) (by norm_num)
  have a2 : toBinary64 (0 : ℚ) = 0 := by
    have e : (0 : ℚ) = 0 := by norm_num
    rw [e]; exact toBinary64_zero
  have a3 : toBinary64 (37.03 : ℚ) = (1302877298449449 / 35184372088832) := by
    exact toBinary64_eq_of_near _ _ (-47) (5211509193797796) (by norm_num) (by norm_num) (by norm_num)
      (by norm_num) (by norm_num) (by norm_num)
  have a4 : toBinary64 ((1302877298449449 / 35184372088832) / 100 : ℚ) = (6670731768061179 / 18014398509481984) := by
    exact toBinary64_eq_of_near _ _ (-54) (6670731768061179) (by norm_num) (by norm_num) (by norm_num)
      (by norm_num) (by norm_num) (by norm_num)
  have a5 : toBinary64 (15625 - 600 : ℚ) = 15025 := by
    exact toBinary64_eq_of_near _ _ (-39) (8260081103667200) (by norm_num) (by norm_num) (by norm_num)
      (by norm_num) (by norm_num) (by norm_num)
  have a6 : toBinary64 (600 * (6670731768061179 / 18014398509481984) : ℚ) = (3908631895348347 / 17592186044416) := by
    exact toBinary64_eq_of_near _ _ (-45) (7817263790696694) (by norm_num) (by norm_num) (by norm_num)
      (by norm_num) (by norm_num) (by norm_num)
  have a7 : toBinary64 (15025 * (6670731768061179 / 18014398509481984) : ℚ) = (6117416065375929 / 1099511627776) := by
    exact toBinary64_eq_of_near _ _ (-40) (6117416065375929) (by norm_num) (by norm_num) (by norm_num)
      (by norm_num) (by norm_num) (by norm_num)
  have a8 : toBinary64 (4.55 : ℚ) = (5122844576133939 / 1125899906842624) := by
    exact toBinary64_eq_of_near _ _ (-50) (5122844576133939) (by norm_num) (by norm_num) (by norm_num)
      (by norm_num) (by norm_num) (by norm_num)
  have a9 : toBinary64 ((5122844576133939 / 1125899906842624) / 100 : ℚ) = (3278620528725721 / 72057594037927936) := by
    exact toBinary64_eq_of_near _ _ (-57) (6557241057451442) (by norm_num) (by norm_num) (by norm_num)
      (by norm_num) (by norm_num) (by norm_num)
  have a10 : toBinary64 (12.85 : ℚ) = (7233906901463859 / 562949953421312) := by
    exact toBinary64_eq_of_near _ _ (-49) (7233906901463859) (by norm_num) (by norm_num) (by norm_num)
      (by norm_num) (by norm_num) (by norm_num)
  have a11 : toBinary64 ((7233906901463859 / 562949953421312) / 100 : ℚ) = (2314850208468435 / 18014398509481984) := by
    exact toBinary64_eq_of_near _ _ (-55) (4629700416936870) (by norm_num) (by norm_num) (by norm_num)
      (by norm_num) (by norm_num) (by norm_num)
  have a12 : toBinary64 (600 * (3278620528725721 / 72057594037927936) : ℚ) = (7684266864200909 / 281474976710656) := by
    exact toBinary64_eq_of_near _ _ (-48) (7684266864200909) (by norm_num) (by norm_num) (by norm_num)
      (by norm_num) (by norm_num) (by norm_num)
  have a13 : toBinary64 (15025 * (3278620528725721 / 72057594037927936) : ℚ) = (6013339043469721 / 8796093022208) := by
    exact toBinary64_eq_of_near _ _ (-43) (6013339043469721) (by norm_num) (by norm_num) (by norm_num)
      (by norm_num) (by norm_num) (by norm_num)
  have a14 : toBinary64 (600 * (2314850208468435 / 18014398509481984) : ℚ) = (5425430176097895 / 70368744177664) := by
    exact toBinary64_eq_of_near _ _ (-46) (5425430176097895) (by norm_num) (by norm_num) (by norm_num)
      (by norm_num) (by norm_num) (by norm_num)
  have a15 : toBinary64 (15025 * (2314850208468435 / 18014398509481984) : ℚ) = (4245681687284941 / 2199023255552) := by
    exact toBinary64_eq_of_near _ _ (-42) (8491363374569882) (by norm_num) (by norm_num) (by norm_num)
      (by norm_num) (by norm_num) (by norm_num)
  have a16 : toBinary64 (600 * 0 : ℚ) = 0 := by
    have e : (600 * 0 : ℚ) = 0 := by norm_num
    rw [e]; exact toBinary64_zero
  have a17 : toBinary64 (15025 * 0 : ℚ) = 0 := by
    have e : (15025 * 0 : ℚ) = 0 := by norm_num
    rw [e]; exact toBinary64_zero
  have a18 : toBinary64 (0 + 0 : ℚ) = 0 := by
    have e : (0 + 0 : ℚ) = 0 := by norm_num
    rw [e]; exact toBinary64_zero
  have a19 : toBinary64 (10.00 : ℚ) = 10 := by
    exact toBinary64_eq_of_near _ _ (-49) (5629499534213120) (by norm_num) (by norm_num) (by norm_num)
      (by norm_num) (by norm_num) (by norm_num)
  have a20 : toBinary64 (0 / 100 : ℚ) = 0 := by
    have e : (0 / 100 : ℚ) = 0 := by norm_num
    rw [e]; exact toBinary64_zero
  have a21 : toBinary64 ((3908631895348347 / 17592186044416) + (7684266864200909 / 281474976710656) : ℚ) = (548612321795113 / 2199023255552) := by
    exact toBinary64_eq_of_near _ _ (-45) (8777797148721808) (by norm_num) (by norm_num) (by norm_num)
      (by norm_num) (by norm_num) (by norm_num)
  have a22 : toBinary64 ((548612321795113 / 2199023255552) + (5425430176097895 / 70368744177664) : ℚ) = (2872628059192689 / 8796093022208) := by
    exact toBinary64_eq_of_near _ _ (-44) (5745256118385378) (by norm_num) (by norm_num) (by norm_num)
      (by norm_num) (by norm_num) (by norm_num)
  have a23 : toBinary64 ((2872628059192689 / 8796093022208) + 0 : ℚ) = (2872628059192689 / 8796093022208) := by
    exact toBinary64_eq_of_near _ _ (-44) (5745256118385378) (by norm_num) (by norm_num) (by norm_num)
      (by norm_num) (by norm_num) (by norm_num)
  have a24 : toBinary64 ((6117416065375929 / 1099511627776) + (6013339043469721 / 8796093022208) : ℚ) = (1717270861452411 / 274877906944) := by
    exact toBinary64_eq_of_near _ _ (-40) (6869083445809644) (by norm_num) (by norm_num) (by norm_num)
      (by norm_num) (by norm_num) (by norm_num)
  have a25 : toBinary64 ((1717270861452411 / 274877906944) + (4245681687284941 / 2199023255552) : ℚ) = (4495962144726057 / 549755813888) := by
    exact toBinary64_eq_of_tie _ _ (-40) (8991924289452114) (by norm_num) (by norm_num) (by decide)
      (by norm_num) (by norm_num) (by norm_num)
  have a26 : toBinary64 ((4495962144726057 / 549755813888) + 10 : ℚ) = (4501459702864937 / 549755813888) := by
    exact toBinary64_eq_of_near _ _ (-40) (9002919405729874) (by norm_num) (by norm_num) (by norm_num)
      (by norm_num) (by norm_num) (by norm_num)
  have a27 : toBinary64 ((4501459702864937 / 549755813888) + 0 : ℚ) = (4501459702864937 / 549755813888) := by
    exact toBinary64_eq_of_near _ _ (-40) (9002919405729874) (by norm_num) (by norm_num) (by norm_num)
      (by norm_num) (by norm_num) (by norm_num)
  have a28 : toBinary64 ((2872628059192689 / 8796093022208) + (4501459702864937 / 549755813888) : ℚ) = (136235 / 16) := by
    exact toBinary64_eq_of_near _ _ (-39) (4680998956564480) (by norm_num) (by norm_num) (by norm_num)
      (by norm_num) (by norm_num) (by norm_num)
  have a29 : toBinary64 ((3908631895348347 / 17592186044416) + (6117416065375929 / 1099511627776) : ℚ) = (6361705558835201 / 1099511627776) := by
    exact toBinary64_eq_of_near _ _ (-40) (6361705558835201) (by norm_num) (by norm_num) (by norm_num)
      (by norm_num) (by norm_num) (by norm_num)
  have a30 : toBinary64 ((7684266864200909 / 281474976710656) + (6013339043469721 / 8796093022208) : ℚ) = (6253472382975999 / 8796093022208) := by
    exact toBinary64_eq_of_near _ _ (-43) (6253472382975999) (by norm_num) (by norm_num) (by norm_num)
      (by norm_num) (by norm_num) (by norm_num)
  have a31 : toBinary64 ((5425430176097895 / 70368744177664) + (4245681687284941 / 2199023255552) : ℚ) = (32125 / 16) := by
    exact toBinary64_eq_of_near _ _ (-42) (8830452760576000) (by norm_num) (by norm_num) (by norm_num)
      (by norm_num) (by norm_num) (by norm_num)
  have a32 : toBinary64 ((6361705558835201 / 1099511627776) + (6253472382975999 / 8796093022208) : ℚ) = (7143389606707201 / 1099511627776) := by
    exact toBinary64_eq_of_near _ _ (-40) (7143389606707201) (by norm_num) (by norm_num) (by norm_num)
      (by norm_num) (by norm_num) (by norm_num)
  have a33 : toBinary64 ((7143389606707201 / 1099511627776) + (32125 / 16) : ℚ) = (136075 / 16) := by
    exact toBinary64_eq_of_tie _ _ (-39) (4675501398425600) (by norm_num) (by norm_num) (by decide)
      (by norm_num) (by norm_num) (by norm_num)
  have a34 : toBinary64 ((136075 / 16) + 0 : ℚ) = (136075 / 16) := by
    exact toBinary64_eq_of_near _ _ (-39) (4675501398425600) (by norm_num) (by norm_num) (by norm_num)
      (by norm_num) (by norm_num) (by norm_num)
  have a35 : toBinary64 (0.016 : ℚ) = (1152921504606847 / 72057594037927936) := by
    exact toBinary64_eq_of_near _ _ (-58) (4611686018427388) (by norm_num) (by norm_num) (by norm_num)
      (by norm_num) (by norm_num) (by norm_num)
  have a36 : toBinary64 ((136075 / 16) * (1152921504606847 / 72057594037927936) : ℚ) = (2393856715993907 / 17592186044416) := by
    exact toBinary64_eq_of_near _ _ (-45) (4787713431987814) (by norm_num) (by norm_num) (by norm_num)
      (by norm_num) (by norm_num) (by norm_num)
  have a37 : toBinary64 ((2393856715993907 / 17592186044416) * 100 : ℚ) = (7480802237480959 / 549755813888) := by
    exact toBinary64_eq_of_near _ _ (-39) (7480802237480959) (by norm_num) (by norm_num) (by norm_num)
      (by norm_num) (by norm_num) (by norm_num)
  have a38 : toBinary64 (13607 / 100 : ℚ) = (2393768755063685 / 17592186044416) := by
    exact toBinary64_eq_of_near _ _ (-45) (4787537510127370) (by norm_num) (by norm_num) (by norm_num)
      (by norm_num) (by norm_num) (by norm_num)
  have a39 : toBinary64 (0.08 : ℚ) = (5764607523034235 / 72057594037927936) := by
    exact toBinary64_eq_of_near _ _ (-56) (5764607523034235) (by norm_num) (by norm_num) (by norm_num)
      (by norm_num) (by norm_num) (by norm_num)
  have a40 : toBinary64 ((4501459702864937 / 549755813888) * (5764607523034235 / 72057594037927936) : ℚ) = (5761868419667119 / 8796093022208) := by
    exact toBinary64_eq_of_near _ _ (-43) (5761868419667119) (by norm_num) (by norm_num) (by norm_num)
      (by norm_num) (by norm_num) (by norm_num)
  have a41 : toBinary64 ((5761868419667119 / 8796093022208) * 100 : ℚ) = (9002919405729873 / 137438953472) := by
    exact toBinary64_eq_of_near _ _ (-37) (9002919405729873) (by norm_num) (by norm_num) (by norm_num)
      (by norm_num) (by norm_num) (by norm_num)
  have a42 : toBinary64 (65505 / 100 : ℚ) = (2880940367098675 / 4398046511104) := by
    exact toBinary64_eq_of_near _ _ (-43) (5761880734197350) (by norm_num) (by norm_num) (by norm_num)
      (by norm_num) (by norm_num) (by norm_num)
  have a43 : toBinary64 ((136235 / 16) + (2393768755063685 / 17592186044416) : ℚ) = (1188951057540055 / 137438953472) := by
    exact toBinary64_eq_of_near _ _ (-39) (4755804230160220) (by norm_num) (by norm_num) (by norm_num)
      (by norm_num) (by norm_num) (by norm_num)
  have a44 : toBinary64 ((1188951057540055 / 137438953472) + (2880940367098675 / 4398046511104) : ℚ) = (2557960888023777 / 274877906944) := by
    exact toBinary64_eq_of_near _ _ (-39) (5115921776047554) (by norm_num) (by norm_num) (by norm_num)
      (by norm_num) (by norm_num) (by norm_num)
  have af1 : (15625 : ℚ) > 1500 := by norm_num
  have af2 : min (15625 : ℚ) 600 = 600 := by norm_num
  have af3 : max (15025 : ℚ) 0 = 15025 := by norm_num
  have af4 : (15025 : ℚ) > 0 := by norm_num
  have af5 : (15625 : ℚ) > 600 := by norm_num
  have af6 : (15625 : ℚ) > 300 := by norm_num
  have ainc : getIncentiveRate 15625 = 0 := by
    norm_num [getIncentiveRate, incentiveRates, scanRanges, inRange]
  have ar1 : mathRound (7480802237480959 / 549755813888) = 13607 := by
    have := mathRound_eq_of_bounds (7480802237480959 / 549755813888) (13607) (by norm_num) (by norm_num)
    simpa using this
  have ar2 : mathRound (9002919405729873 / 137438953472) = 65505 := by
    have := mathRound_eq_of_bounds (9002919405729873 / 137438953472) (65505) (by norm_num) (by norm_num)
    simpa using this
  have alo : toBinary64 (136.07 : ℚ) = (2393768755063685 / 17592186044416) := by
    exact toBinary64_eq_of_near _ _ (-45) (4787537510127370) (by norm_num) (by norm_num) (by norm_num)
      (by norm_num) (by norm_num) (by norm_num)
  have ahi : toBinary64 (136.08 : ℚ) = (4787889353848259 / 35184372088832) := by
    exact toBinary64_eq_of_near _ _ (-45) (4787889353848259) (by norm_num) (by norm_num) (by norm_num)
      (by norm_num) (by norm_num) (by norm_num)
  have ax : mathRound (27215 / 2) = 13608 := by
    have := mathRound_eq_of_bounds (27215 / 2) 13608 (by norm_num) (by norm_num)
    simpa using this
  have ab : (8504.6875 : ℚ) = 136075 / 16 := by norm_num
  have ak : (calculateTnbBillBinary64 15625 0).kwtbb = (2393768755063685 / 17592186044416) := by
    simp only [calculateTnbBillBinary64, f64add, f64sub, f64mul, f64div, rates, if_true, if_false,
      a1, a2, a3, a4, a5, a6, a7, a8, a9, a10, a11, a12, a13, a14, a15, a16, a17, a18, a19, a20,
      a21, a22, a23, a24, a25, a26, a27, a28, a29, a30, a31, a32, a33, a34, a35, a36, a37, a38,
      a39, a40, a41, a42, a43, a44, af1, af2, af3, af4, af5, af6, ainc, ar1, ar2]
  refine ⟨by norm_num, ?_, by norm_num, ?_, ?_, ?_, by norm_num, ar1, ?_, ?_, ?_⟩
  · norm_num [calculateTnbBill, getIncentiveRate, incentiveRates, scanRanges, inRange, rates]
  · norm_num [calculateTnbBill, getIncentiveRate, incentiveRates, scanRanges, inRange, rates, ax]
  · rw [ab]
    simp only [calculateTnbBillBinary64, f64add, f64sub, f64mul, f64div, rates, if_true, if_false,
      a1, a2, a3, a4, a5, a6, a7, a8, a9, a10, a11, a12, a13, a14, a15, a16, a17, a18, a19, a20,
      a21, a22, a23, a24, a25, a26, a27, a28, a29, a30, a31, a32, a33, a34, a35, a36, a37, a38,
      a39, a40, a41, a42, a43, a44, af1, af2, af3, af4, af5, af6, ainc, ar1, ar2]
  · rw [ab]
    simp only [f64mul, a1, a2, a3, a4, a5, a6, a7, a8, a9, a10, a11, a12, a13, a14, a15, a16, a17,
      a18, a19, a20, a21, a22, a23, a24, a25, a26, a27, a28, a29, a30, a31, a32, a33, a34, a35,
      a36, a37, a38, a39, a40, a41, a42, a43, a44, af1, af2, af3, af4, af5, af6, ainc, ar1, ar2]
  · rw [ak, alo]
  · rw [ak, ahi]; norm_num
  · rw [ak, abs_lt]; constructor <;> norm_num

/-- C12 fails on the code at a half-cent tie.  For 825 kWh at AFA 0.32 sen
`usageChargeService` is exactly 105.0625 in exact arithmetic and in binary64, and
8% of it is 8.405, which rounds half up to 8.41.  The binary64 product
`withServiceTax * 0.08 * 100` is 840.4999999999999, below the tie, so
`Math.round` gives 840 and `serviceTax` is the binary64 value of 8.40. -/
theorem serviceTax_half_cent_tie_rounds_down :
    (825 : ℚ) > 600 ∧
      (calculateTnbBill 825 0.32).usageChargeService = 105.0625 ∧
      (105.0625 : ℚ) * 0.08 = 8.405 ∧
      (calculateTnbBill 825 0.32).serviceTax = 8.41 ∧
      (calculateTnbBillBinary64 825 0.32).usageChargeService = 105.0625 ∧
      f64mul (f64mul 105.0625 (toBinary64 0.08)) 100 = 7393116185165823 / 8796093022208 ∧
      (7393116185165823 / 8796093022208 : ℚ) < 840.5 ∧
      mathRound (7393116185165823 / 8796093022208) = 840 ∧
      (calculateTnbBillBinary64 825 0.32).serviceTax = toBinary64 8.40 ∧
      (calculateTnbBillBinary64 825 0.32).serviceTax ≠ toBinary64 8.41 ∧
      |(calculateTnbBillBinary64 825 0.32).serviceTax - 8.40| < 1 / 10 ^ 12 := by
  have b1 : toBinary64 (825 : ℚ) = 825 := by
    exact toBinary64_eq_of_near _ _ (-43) (7256776743321600) (by norm_num) (by norm_num) (by norm_num)
      (by norm_num) (by norm_num) (by norm_num)
  have b2 : toBinary64 (0.32 : ℚ) = (5764607523034235 / 18014398509481984) := by
    exact toBinary64_eq_of_near _ _ (-54) (5764607523034235) (by norm_num) (by norm_num) (by norm_num)
      (by norm_num) (by norm_num) (by norm_num)
  have b3 : toBinary64 (27.03 : ℚ) = (951033577561129 / 35184372088832) := by
    exact toBinary64_eq_of_near _ _ (-48) (7608268620489032) (by norm_num) (by norm_num) (by norm_num)
      (by norm_num) (by norm_num) (by norm_num)
  have b4 : toBinary64 ((951033577561129 / 35184372088832) / 100 : ℚ) = (1217322979278245 / 4503599627370496) := by
    exact toBinary64_eq_of_near _ _ (-54) (4869291917112980) (by norm_num) (by norm_num) (by norm_num)
      (by norm_num) (by norm_num) (by norm_num)
  have b5 : toBinary64 (825 - 600 : ℚ) = 225 := by
    exact toBinary64_eq_of_near _ _ (-45) (7916483719987200) (by norm_num) (by norm_num) (by norm_num)
      (by norm_num) (by norm_num) (by norm_num)
  have b6 : toBinary64 (600 * (1217322979278245 / 4503599627370496) : ℚ) = (5706201465366773 / 35184372088832) := by
    exact toBinary64_eq_of_near _ _ (-45) (5706201465366773) (by norm_num) (by norm_num) (by norm_num)
      (by norm_num) (by norm_num) (by norm_num)
  have b7 : toBinary64 (225 * (1217322979278245 / 4503599627370496) : ℚ) = (534956387378135 / 8796093022208) := by
    exact toBinary64_eq_of_near _ _ (-47) (8559302198050160) (by norm_num) (by norm_num) (by norm_num)
      (by norm_num) (by norm_num) (by norm_num)
  have b8 : toBinary64 (4.55 : ℚ) = (5122844576133939 / 1125899906842624) := by
    exact toBinary64_eq_of_near _ _ (-50) (5122844576133939) (by norm_num) (by norm_num) (by norm_num)
      (by norm_num) (by norm_num) (by norm_num)
  have b9 : toBinary64 ((5122844576133939 / 1125899906842624) / 100 : ℚ) = (3278620528725721 / 72057594037927936) := by
    exact toBinary64_eq_of_near _ _ (-57) (6557241057451442) (by norm_num) (by norm_num) (by norm_num)
      (by norm_num) (by norm_num) (by norm_num)
  have b10 : toBinary64 (12.85 : ℚ) = (7233906901463859 / 562949953421312) := by
    exact toBinary64_eq_of_near _ _ (-49) (7233906901463859) (by norm_num) (by norm_num) (by norm_num)
      (by norm_num) (by norm_num) (by norm_num)
  have b11 : toBinary64 ((7233906901463859 / 562949953421312) / 100 : ℚ) = (2314850208468435 / 18014398509481984) := by
    exact toBinary64_eq_of_near _ _ (-55) (4629700416936870) (by norm_num) (by norm_num) (by norm_num)
      (by norm_num) (by norm_num) (by norm_num)
  have b12 : toBinary64 (600 * (3278620528725721 / 72057594037927936) : ℚ) = (7684266864200909 / 281474976710656) := by
    exact toBinary64_eq_of_near _ _ (-48) (7684266864200909) (by norm_num) (by norm_num) (by norm_num)
      (by norm_num) (by norm_num) (by norm_num)
  have b13 : toBinary64 (225 * (3278620528725721 / 72057594037927936) : ℚ) = (5763200148150681 / 562949953421312) := by
    exact toBinary64_eq_of_near _ _ (-49) (5763200148150681) (by norm_num) (by norm_num) (by norm_num)
      (by norm_num) (by norm_num) (by norm_num)
  have b14 : toBinary64 (600 * (2314850208468435 / 18014398509481984) : ℚ) = (5425430176097895 / 70368744177664) := by
    exact toBinary64_eq_of_near _ _ (-46) (5425430176097895) (by norm_num) (by norm_num) (by norm_num)
      (by norm_num) (by norm_num) (by norm_num)
  have b15 : toBinary64 (225 * (2314850208468435 / 18014398509481984) : ℚ) = (4069072632073421 / 140737488355328) := by
    exact toBinary64_eq_of_near _ _ (-48) (8138145264146842) (by norm_num) (by norm_num) (by norm_num)
      (by norm_num) (by norm_num) (by norm_num)
  have b16 : toBinary64 (-0.025 : ℚ) = (-(3602879701896397 / 144115188075855872)) := by
    exact toBinary64_eq_of_near_neg _ _ (-58) (-7205759403792794) (by norm_num) (by norm_num) (by norm_num)
      (by norm_num) (by norm_num) (by norm_num)
  have b17 : toBinary64 (600 * (-(3602879701896397 / 144115188075855872)) : ℚ) = (-15) := by
    exact toBinary64_eq_of_near_neg _ _ (-49) (-8444249301319680) (by norm_num) (by norm_num) (by norm_num)
      (by norm_num) (by norm_num) (by norm_num)
  have b18 : toBinary64 (225 * (-(3602879701896397 / 144115188075855872)) : ℚ) = (-(45 / 8)) := by
    exact toBinary64_eq_of_near_neg _ _ (-50) (-6333186975989760) (by norm_num) (by norm_num) (by norm_num)
      (by norm_num) (by norm_num) (by norm_num)
  have b19 : toBinary64 ((-15) + (-(45 / 8)) : ℚ) = (-(165 / 8)) := by
    exact toBinary64_eq_of_near_neg _ _ (-48) (-5805421394657280) (by norm_num) (by norm_num) (by norm_num)
      (by norm_num) (by norm_num) (by norm_num)
  have b20 : toBinary64 (10.00 : ℚ) = 10 := by
    exact toBinary64_eq_of_near _ _ (-49) (5629499534213120) (by norm_num) (by norm_num) (by norm_num)
      (by norm_num) (by norm_num) (by norm_num)
  have b21 : toBinary64 ((5764607523034235 / 18014398509481984) / 100 : ℚ) = (7378697629483821 / 2305843009213693952) := by
    exact toBinary64_eq_of_near _ _ (-61) (7378697629483821) (by norm_num) (by norm_num) (by norm_num)
      (by norm_num) (by norm_num) (by norm_num)
  have b22 : toBinary64 (600 * (7378697629483821 / 2305843009213693952) : ℚ) = (8646911284551353 / 4503599627370496) := by
    exact toBinary64_eq_of_near _ _ (-52) (8646911284551353) (by norm_num) (by norm_num) (by norm_num)
      (by norm_num) (by norm_num) (by norm_num)
  have b23 : toBinary64 (225 * (7378697629483821 / 2305843009213693952) : ℚ) = (6485183463413515 / 9007199254740992) := by
    exact toBinary64_eq_of_near _ _ (-53) (6485183463413515) (by norm_num) (by norm_num) (by norm_num)
      (by norm_num) (by norm_num) (by norm_num)
  have b24 : toBinary64 ((8646911284551353 / 4503599627370496) + (6485183463413515 / 9007199254740992) : ℚ) = (5944751508129055 / 2251799813685248) := by
    exact toBinary64_eq_of_near _ _ (-51) (5944751508129055) (by norm_num) (by norm_num) (by norm_num)
      (by norm_num) (by norm_num) (by norm_num)
  have b25 : toBinary64 ((5706201465366773 / 35184372088832) + (7684266864200909 / 281474976710656) : ℚ) = (6666734823391887 / 35184372088832) := by
    exact toBinary64_eq_of_near _ _ (-45) (6666734823391887) (by norm_num) (by norm_num) (by norm_num)
      (by norm_num) (by norm_num) (by norm_num)
  have b26 : toBinary64 ((6666734823391887 / 35184372088832) + (5425430176097895 / 70368744177664) : ℚ) = (4689724955720417 / 17592186044416) := by
    exact toBinary64_eq_of_near _ _ (-44) (4689724955720417) (by norm_num) (by norm_num) (by norm_num)
      (by norm_num) (by norm_num) (by norm_num)
  have b27 : toBinary64 ((4689724955720417 / 17592186044416) + (-15) : ℚ) = (4425842165054177 / 17592186044416) := by
    exact toBinary64_eq_of_near _ _ (-45) (8851684330108354) (by norm_num) (by norm_num) (by norm_num)
      (by norm_num) (by norm_num) (by norm_num)
  have b28 : toBinary64 ((4425842165054177 / 17592186044416) + (8646911284551353 / 4503599627370496) : ℚ) = (8919238324518911 / 35184372088832) := by
    exact toBinary64_eq_of_near _ _ (-45) (8919238324518911) (by norm_num) (by norm_num) (by norm_num)
      (by norm_num) (by norm_num) (by norm_num)
  have b29 : toBinary64 ((534956387378135 / 8796093022208) + (5763200148150681 / 562949953421312) : ℚ) = (5000051117543915 / 70368744177664) := by
    exact toBinary64_eq_of_near _ _ (-46) (5000051117543915) (by norm_num) (by norm_num) (by norm_num)
      (by norm_num) (by norm_num) (by norm_num)
  have b30 : toBinary64 ((5000051117543915 / 70368744177664) + (4069072632073421 / 140737488355328) : ℚ) = (3517293716790313 / 35184372088832) := by
    exact toBinary64_eq_of_tie _ _ (-46) (7034587433580626) (by norm_num) (by norm_num) (by decide)
      (by norm_num) (by norm_num) (by norm_num)
  have b31 : toBinary64 ((3517293716790313 / 35184372088832) + 10 : ℚ) = (3869137437678633 / 35184372088832) := by
    exact toBinary64_eq_of_near _ _ (-46) (7738274875357266) (by norm_num) (by norm_num) (by norm_num)
      (by norm_num) (by norm_num) (by norm_num)
  have b32 : toBinary64 ((3869137437678633 / 35184372088832) + (-(45 / 8)) : ℚ) = (3671225344678953 / 35184372088832) := by
    exact toBinary64_eq_of_near _ _ (-46) (7342450689357906) (by norm_num) (by norm_num) (by norm_num)
      (by norm_num) (by norm_num) (by norm_num)
  have b33 : toBinary64 ((3671225344678953 / 35184372088832) + (6485183463413515 / 9007199254740992) : ℚ) = (1681 / 16) := by
    exact toBinary64_eq_of_near _ _ (-46) (7393116185165824) (by norm_num) (by norm_num) (by norm_num)
      (by norm_num) (by norm_num) (by norm_num)
  have b34 : toBinary64 ((8919238324518911 / 35184372088832) + (1681 / 16) : ℚ) = (5737 / 16) := by
    exact toBinary64_eq_of_tie _ _ (-44) (6307898208550912) (by norm_num) (by norm_num) (by decide)
      (by norm_num) (by norm_num) (by norm_num)
  have b35 : toBinary64 ((5706201465366773 / 35184372088832) + (534956387378135 / 8796093022208) : ℚ) = (7846027014879313 / 35184372088832) := by
    exact toBinary64_eq_of_near _ _ (-45) (7846027014879313) (by norm_num) (by norm_num) (by norm_num)
      (by norm_num) (by norm_num) (by norm_num)
  have b36 : toBinary64 ((7684266864200909 / 281474976710656) + (5763200148150681 / 562949953421312) : ℚ) = (5282933469138125 / 140737488355328) := by
    exact toBinary64_eq_of_near _ _ (-47) (5282933469138125) (by norm_num) (by norm_num) (by norm_num)
      (by norm_num) (by norm_num) (by norm_num)
  have b37 : toBinary64 ((5425430176097895 / 70368744177664) + (4069072632073421 / 140737488355328) : ℚ) = (3729983246067303 / 35184372088832) := by
    exact toBinary64_eq_of_tie _ _ (-46) (7459966492134606) (by norm_num) (by norm_num) (by decide)
      (by norm_num) (by norm_num) (by norm_num)
  have b38 : toBinary64 ((7846027014879313 / 35184372088832) + (5282933469138125 / 140737488355328) : ℚ) = (2291690095540961 / 8796093022208) := by
    exact toBinary64_eq_of_near _ _ (-44) (4583380191081922) (by norm_num) (by norm_num) (by norm_num)
      (by norm_num) (by norm_num) (by norm_num)
  have b39 : toBinary64 ((2291690095540961 / 8796093022208) + (3729983246067303 / 35184372088832) : ℚ) = (3224185907057787 / 8796093022208) := by
    exact toBinary64_eq_of_tie _ _ (-44) (6448371814115574) (by norm_num) (by norm_num) (by decide)
      (by norm_num) (by norm_num) (by norm_num)
  have b40 : toBinary64 ((3224185907057787 / 8796093022208) + (-(165 / 8)) : ℚ) = (3042766488474747 / 8796093022208) := by
    exact toBinary64_eq_of_near _ _ (-44) (6085532976949494) (by norm_num) (by norm_num) (by norm_num)
      (by norm_num) (by norm_num) (by norm_num)
  have b41 : toBinary64 (0.016 : ℚ) = (1152921504606847 / 72057594037927936) := by
    exact toBinary64_eq_of_near _ _ (-58) (4611686018427388) (by norm_num) (by norm_num) (by norm_num)
      (by norm_num) (by norm_num) (by norm_num)
  have b42 : toBinary64 ((3042766488474747 / 8796093022208) * (1152921504606847 / 72057594037927936) : ℚ) = (3115792884198141 / 562949953421312) := by
    exact toBinary64_eq_of_near _ _ (-50) (6231585768396282) (by norm_num) (by norm_num) (by norm_num)
      (by norm_num) (by norm_num) (by norm_num)
  have b43 : toBinary64 ((3115792884198141 / 562949953421312) * 100 : ℚ) = (4868426381559595 / 8796093022208) := by
    exact toBinary64_eq_of_near _ _ (-43) (4868426381559595) (by norm_num) (by norm_num) (by norm_num)
      (by norm_num) (by norm_num) (by norm_num)
  have b44 : toBinary64 (553 / 100 : ℚ) = (6226226484839711 / 1125899906842624) := by
    exact toBinary64_eq_of_near _ _ (-50) (6226226484839711) (by norm_num) (by norm_num) (by norm_num)
      (by norm_num) (by norm_num) (by norm_num)
  have b45 : toBinary64 (0.08 : ℚ) = (5764607523034235 / 72057594037927936) := by
    exact toBinary64_eq_of_near _ _ (-56) (5764607523034235) (by norm_num) (by norm_num) (by norm_num)
      (by norm_num) (by norm_num) (by norm_num)
  have b46 : toBinary64 ((1681 / 16) * (5764607523034235 / 72057594037927936) : ℚ) = (4731594358506127 / 562949953421312) := by
    exact toBinary64_eq_of_near _ _ (-49) (4731594358506127) (by norm_num) (by norm_num) (by norm_num)
      (by norm_num) (by norm_num) (by norm_num)
  have b47 : toBinary64 ((4731594358506127 / 562949953421312) * 100 : ℚ) = (7393116185165823 / 8796093022208) := by
    exact toBinary64_eq_of_near _ _ (-43) (7393116185165823) (by norm_num) (by norm_num) (by norm_num)
      (by norm_num) (by norm_num) (by norm_num)
  have b48 : toBinary64 (840 / 100 : ℚ) = (4728779608739021 / 562949953421312) := by
    exact toBinary64_eq_of_near _ _ (-49) (4728779608739021) (by norm_num) (by norm_num) (by norm_num)
      (by norm_num) (by norm_num) (by norm_num)
  have b49 : toBinary64 ((5737 / 16) + (6226226484839711 / 1125899906842624) : ℚ) = (1601295749344133 / 4398046511104) := by
    exact toBinary64_eq_of_near _ _ (-44) (6405182997376532) (by norm_num) (by norm_num) (by norm_num)
      (by norm_num) (by norm_num) (by norm_num)
  have b50 : toBinary64 ((1601295749344133 / 4398046511104) + (4728779608739021 / 562949953421312) : ℚ) = (3276478680074813 / 8796093022208) := by
    exact toBinary64_eq_of_near _ _ (-44) (6552957360149626) (by norm_num) (by norm_num) (by norm_num)
      (by norm_num) (by norm_num) (by norm_num)
  have bf1 : ¬ ((825 : ℚ) > 1500) := by norm_num
  have bf2 : min (825 : ℚ) 600 = 600 := by norm_num
  have bf3 : max (225 : ℚ) 0 = 225 := by norm_num
  have bf4 : (225 : ℚ) > 0 := by norm_num
  have bf5 : (825 : ℚ) > 600 := by norm_num
  have bf6 : (825 : ℚ) > 300 := by norm_num
  have binc : getIncentiveRate 825 = -0.025 := by
    norm_num [getIncentiveRate, incentiveRates, scanRanges, inRange]
  have br1 : mathRound (4868426381559595 / 8796093022208) = 553 := by
    have := mathRound_eq_of_bounds (4868426381559595 / 8796093022208) (553) (by norm_num) (by norm_num)
    simpa using this
  have br2 : mathRound (7393116185165823 / 8796093022208) = 840 := by
    have := mathRound_eq_of_bounds (7393116185165823 / 8796093022208) (840) (by norm_num) (by norm_num)
    simpa using this
  have blo : toBinary64 (8.40 : ℚ) = (4728779608739021 / 562949953421312) := by
    exact toBinary64_eq_of_near _ _ (-49) (4728779608739021) (by norm_num) (by norm_num) (by norm_num)
      (by norm_num) (by norm_num) (by norm_num)
  have bhi : toBinary64 (8.41 : ℚ) = (2367204554136617 / 281474976710656) := by
    exact toBinary64_eq_of_near _ _ (-49) (4734409108273234) (by norm_num) (by norm_num) (by norm_num)
      (by norm_num) (by norm_num) (by norm_num)
  have bx : mathRound (1681 / 2) = 841 := by
    have := mathRound_eq_of_bounds (1681 / 2) 841 (by norm_num) (by norm_num)
    simpa using this
  have bb : (105.0625 : ℚ) = 1681 / 16 := by norm_num
  have bw : (calculateTnbBillBinary64 825 0.32).usageChargeService = (1681 / 16) := by
    simp only [calculateTnbBillBinary64, f64add, f64sub, f64mul, f64div, rates, if_true, if_false,
      b1, b2, b3, b4, b5, b6, b7, b8, b9, b10, b11, b12, b13, b14, b15, b16, b17, b18, b19, b20,
      b21, b22, b23, b24, b25, b26, b27, b28, b29, b30, b31, b32, b33, b34, b35, b36, b37, b38,
      b39, b40, b41, b42, b43, b44, b45, b46, b47, b48, b49, b50, bf1, bf2, bf3, bf4, bf5, bf6,
      binc, br1, br2]
  have bk : (calculateTnbBillBinary64 825 0.32).serviceTax = (4728779608739021 / 562949953421312) := by
    simp only [calculateTnbBillBinary64, f64add, f64sub, f64mul, f64div, rates, if_true, if_false,
      b1, b2, b3, b4, b5, b6, b7, b8, b9, b10, b11, b12, b13, b14, b15, b16, b17, b18, b19, b20,
      b21, b22, b23, b24, b25, b26, b27, b28, b29, b30, b31, b32, b33, b34, b35, b36, b37, b38,
      b39, b40, b41, b42, b43, b44, b45, b46, b47, b48, b49, b50, bf1, bf2, bf3, bf4, bf5, bf6,
      binc, br1, br2]
  refine ⟨by norm_num, ?_, by norm_num, ?_, ?_, ?_, by norm_num, br2, ?_, ?_, ?_⟩
  · norm_num [calculateTnbBill, getIncentiveRate, incentiveRates, scanRanges, inRange, rates]
  · norm_num [calculateTnbBill, getIncentiveRate, incentiveRates, scanRanges, inRange, rates, bx]
  · rw [bw]; norm_num
  · rw [bb]
    simp only [f64mul, b1, b2, b3, b4, b5, b6, b7, b8, b9, b10, b11, b12, b13, b14, b15, b16, b17,
      b18, b19, b20, b21, b22, b23, b24, b25, b26, b27, b28, b29, b30, b31, b32, b33, b34, b35,
      b36, b37, b38, b39, b40, b41, b42, b43, b44, b45, b46, b47, b48, b49, b50, bf1, bf2, bf3,
      bf4, bf5, bf6, binc, br1, br2]
  · rw [bk, blo]
  · rw [bk, bhi]; norm_num
  · rw [bk, abs_lt]; constructor <;> norm_num

/-- C13: `getTariffRate(usage)` is 0.5443 above 1500 kWh and 0.4443 otherwise,
and for every usage (in particular every usage `>= 0`) and AFA rate,
`energyTotal + capacityTotal + networkTotal` equals
`usage * getTariffRate(usage)`: the blended rate is the sum of the itemised
rates, one energy rate applied to base and excess alike. -/
theorem blended_rate_refines_itemized (usage afaRate : ℚ) :
    getTariffRate usage = (if usage > 1500 then 0.5443 else 0.4443) ∧
      RETAIL_TARIFF_LOW =
        (rates.domestic.energy + rates.domestic.capacity + rates.domestic.network) / 100 ∧
      RETAIL_TARIFF_HIGH =
        (rates.domestic.energyHigh + rates.domestic.capacity + rates.domestic.network) / 100 ∧
      (calculateTnbBill usage afaRate).energyTotal +
          (calculateTnbBill usage afaRate).capacityTotal +
          (calculateTnbBill usage afaRate).networkTotal =
        usage * getTariffRate usage := by
  refine ⟨?_, ?_, ?_, ?_⟩
  · simp only [getTariffRate, RETAIL_TARIFF_HIGH, RETAIL_TARIFF_LOW]
  · norm_num [RETAIL_TARIFF_LOW, rates]
  · norm_num [RETAIL_TARIFF_HIGH, rates]
  · have hsum : ∀ r c n : ℚ,
        (min usage 600 * r + max (usage - 600) 0 * r) +
            (min usage 600 * c + max (usage - 600) 0 * c) +
            (min usage 600 * n + max (usage - 600) 0 * n) =
          usage * (r + c + n) := by
      intro r c n
      have hb := base_add_excess usage
      calc (min usage 600 * r + max (usage - 600) 0 * r) +
              (min usage 600 * c + max (usage - 600) 0 * c) +
              (min usage 600 * n + max (usage - 600) 0 * n)
          = (min usage 600 + max (usage - 600) 0) * (r + c + n) := by ring
        _ = usage * (r + c + n) := by rw [hb]
    simp only [calculateTnbBill, hsum, getTariffRate, RETAIL_TARIFF_HIGH, RETAIL_TARIFF_LOW, rates]
    by_cases h : usage > 1500
    · simp only [h, if_true]; norm_num
    · simp only [h, if_false]; norm_num

/-- C14: `calculateAtapSavings` returns
`finalBill = max(0, billWithSolar - atapExportCredit)`, which is never negative,
where `billWithSolar` is the bill for the grid usage
`max(0, monthlyUsage - selfConsumptionKwh)` and `atapExportCredit` is
`max(0, generation - selfConsumptionKwh - batteryStorageKwh) * smpRate`. -/
theorem finalBill_clamped (storedSolar monthlyUsage monthlySolarGeneration
    selfConsumptionPercent smpRate afaRate : ℚ) :
    (calculateAtapSavings storedSolar monthlyUsage monthlySolarGeneration
          selfConsumptionPercent smpRate afaRate).finalBill =
        max 0
          ((calculateAtapSavings storedSolar monthlyUsage monthlySolarGeneration
              selfConsumptionPercent smpRate afaRate).billWithSolar -
            (calculateAtapSavings storedSolar monthlyUsage monthlySolarGeneration
              selfConsumptionPercent smpRate afaRate).atapExportCredit) ∧
      0 ≤ (calculateAtapSavings storedSolar monthlyUsage monthlySolarGeneration
          selfConsumptionPercent smpRate afaRate).finalBill ∧
      (calculateAtapSavings storedSolar monthlyUsage monthlySolarGeneration
          selfConsumptionPercent smpRate afaRate).billWithSolar =
        (calculateTnbBill
          (max 0 (monthlyUsage -
            (calculateAtapSavings storedSolar monthlyUsage monthlySolarGeneration
              selfConsumptionPercent smpRate afaRate).selfConsumptionKwh)) afaRate).billAmount ∧
      (calculateAtapSavings storedSolar monthlyUsage monthlySolarGeneration
          selfConsumptionPercent smpRate afaRate).atapExportCredit =
        max 0 (monthlySolarGeneration -
            (calculateAtapSavings storedSolar monthlyUsage monthlySolarGeneration
              selfConsumptionPercent smpRate afaRate).selfConsumptionKwh -
            (calculateAtapSavings storedSolar monthlyUsage monthlySolarGeneration
              selfConsumptionPercent smpRate afaRate).batteryStorageKwh) * smpRate ∧
      (calculateAtapSavings storedSolar monthlyUsage monthlySolarGeneration
          selfConsumptionPercent smpRate afaRate).selfConsumptionKwh =
        min monthlySolarGeneration (monthlySolarGeneration * (selfConsumptionPercent / 100)) ∧
      (calculateAtapSavings storedSolar monthlyUsage monthlySolarGeneration
          selfConsumptionPercent smpRate afaRate).batteryStorageKwh = storedSolar * 30 := by
  refine ⟨rfl, ?_, rfl, rfl, rfl, rfl⟩
  simp only [calculateAtapSavings]
  exact le_max_left _ _

/-- C15 fails on the code: the division in `savingsPercentage` is not guarded.
With `monthlyUsage = 0` the bill without solar is `0`; without generation the
result is `0 / 0 * 100 = NaN`, and with 300 kWh of generation (RM 30 of export
credit) it is `30 / 0 * 100 = Infinity`.  The sibling
`calculateIncentiveUnitCost` guards its own division and returns `0`. -/
theorem savingsPercentage_unguarded :
    (calculateAtapSavings 0 0 0 50 0.20 3).billWithoutSolar = 0 ∧
      (calculateAtapSavings 0 0 0 50 0.20 3).totalSavings = 0 ∧
      (calculateAtapSavings 0 0 0 50 0.20 3).savingsPercentage = JsNumber.NaN ∧
      (calculateAtapSavings 0 0 300 50 0.20 3).billWithoutSolar = 0 ∧
      (calculateAtapSavings 0 0 300 50 0.20 3).totalSavings = 30 ∧
      (calculateAtapSavings 0 0 300 50 0.20 3).savingsPercentage = JsNumber.posInfinity ∧
      calculateIncentiveUnitCost (calculateTnbBill 0 3) = 0 := by
  have hbill : (calculateTnbBill 0 3).billAmount = 0 := by simp [calculateTnbBill]
  have hmax : max (0 : ℚ) (0 - 150) = 0 := max_eq_left (by norm_num)
  have hmin : min (300 : ℚ) (300 * (50 / 100)) = 150 := by norm_num
  refine ⟨?_, ?_, ?_, ?_, ?_, ?_, ?_⟩
  · simp [calculateAtapSavings, hbill]
  · simp [calculateAtapSavings, calculateAfterSolarBill, hbill]
  · simp [calculateAtapSavings, calculateAfterSolarBill, hbill, jsDiv, jsMul]
  · simp [calculateAtapSavings, hbill]
  · simp only [calculateAtapSavings, calculateAfterSolarBill, hmin, hmax, hbill]
    norm_num [hbill]
  · simp only [calculateAtapSavings, calculateAfterSolarBill, hmin, hmax, hbill]
    norm_num [hbill, jsDiv, jsMul]
  · simp [calculateIncentiveUnitCost, calculateTnbBill]

/-- C16 fails on the code: `calculateROI` divides without a guard.  With
`sellingPrice = 10000` and a monthly saving of `0`, `annualSavings` is `0` and
`roiYears = 10000 / 0` and `roiMonths` are `Infinity`, the by-product of the
division by zero; with `sellingPrice = 0` as well both are `NaN`. -/
theorem calculateROI_unguarded :
    (calculateROI 10000 0).annualSavings = 0 ∧
      (calculateROI 10000 0).roiYears = jsDiv 10000 0 ∧
      (calculateROI 10000 0).roiYears = JsNumber.posInfinity ∧
      (calculateROI 10000 0).roiMonths = JsNumber.posInfinity ∧
      (calculateROI 0 0).roiYears = JsNumber.NaN ∧
      (calculateROI 0 0).roiMonths = JsNumber.NaN := by
  refine ⟨?_, ?_, ?_, ?_, ?_, ?_⟩ <;> simp [calculateROI, jsDiv, jsMul]

/-- C17 fails on the code: with 202 kWh of usage and 3 kWh of generation at 50%
self-consumption, the grid usage after solar is 200.5 kWh, which no incentive
range contains; the bill rises from RM 40.2586 to RM 89.08215 and
`directSavings` is negative. -/
theorem directSavings_negative_in_gap :
    (0 : ℚ) ≤ 202 ∧ (0 : ℚ) ≤ 3 ∧ (0 : ℚ) ≤ 50 ∧ (50 : ℚ) ≤ 100 ∧ (0 : ℚ) ≤ 0 ∧
      (calculateAtapSavings 0 202 3 50 0.20 0).selfConsumptionKwh = 1.5 ∧
      (calculateAtapSavings 0 202 3 50 0.20 0).afterSolarBillDetails.usageTotal = 200.5 ∧
      (calculateAtapSavings 0 202 3 50 0.20 0).billWithoutSolar = 40.2586 ∧
      (calculateAtapSavings 0 202 3 50 0.20 0).billWithSolar = 89.08215 ∧
      (calculateAtapSavings 0 202 3 50 0.20 0).directSavings = -48.82355 ∧
      (calculateAtapSavings 0 202 3 50 0.20 0).directSavings < 0 ∧
      (calculateTnbBill 202 0).billAmount < (calculateTnbBill (max 0 (202 - 1.5)) 0).billAmount := by
  have hmin : min (3 : ℚ) (3 * (50 / 100)) = 3 / 2 := by norm_num
  have hmax : max (0 : ℚ) (202 - 3 / 2) = 401 / 2 := by norm_num
  have hmax2 : max (0 : ℚ) (202 - 1.5) = 401 / 2 := by norm_num
  have h1 : (calculateTnbBill 202 0).billAmount = 40.2586 := by
    norm_num [calculateTnbBill, getIncentiveRate, incentiveRates, scanRanges, inRange, rates]
  have h2 : (calculateTnbBill (401 / 2) 0).billAmount = 89.08215 := by
    norm_num [calculateTnbBill, getIncentiveRate, incentiveRates, scanRanges, inRange, rates]
  have h3 : (calculateTnbBill (401 / 2) 0).usageTotal = 200.5 := by
    norm_num [calculateTnbBill]
  refine ⟨by norm_num, by norm_num, by norm_num, by norm_num, le_refl _, ?_, ?_, ?_, ?_, ?_,
    ?_, ?_⟩
  · simp only [calculateAtapSavings, hmin]; norm_num
  · simp only [calculateAtapSavings, calculateAfterSolarBill, hmin, hmax, h3]
  · simp only [calculateAtapSavings, h1]
  · simp only [calculateAtapSavings, calculateAfterSolarBill, hmin, hmax, h2]
  · simp only [calculateAtapSavings, calculateAfterSolarBill, hmin, hmax, h1, h2]; norm_num
  · simp only [calculateAtapSavings, calculateAfterSolarBill, hmin, hmax, h1, h2]; norm_num
  · rw [hmax2, h1, h2]; norm_num

/-- C18: on whole-kWh usage the grand total is monotone: for all integers
`0 <= u1 <= u2` and every AFA rate `>= 0`, the `billAmount` for `u1` is at most
the `billAmount` for `u2`. -/
theorem billAmount_monotone_whole_kwh (u1 u2 : ℤ) (afaRate : ℚ) (h0 : 0 ≤ u1) (h12 : u1 ≤ u2)
    (ha : 0 ≤ afaRate) :
    (calculateTnbBill u1 afaRate).billAmount ≤ (calculateTnbBill u2 afaRate).billAmount := by
  have hN := nonService_charge_mono_whole u1 u2 afaRate h0 h12 ha
  have hS := (service_charge_mono_whole u1 u2 afaRate h0 h12 ha).1
  have hK := kwtbb_mono_whole u1 u2 afaRate h0 h12
  have hT := serviceTax_mono_whole u1 u2 afaRate h0 h12 ha
  have e : ∀ u : ℚ, (calculateTnbBill u afaRate).billAmount =
      (calculateTnbBill u afaRate).usageChargeNonService +
        (calculateTnbBill u afaRate).usageChargeService +
        (calculateTnbBill u afaRate).kwtbb + (calculateTnbBill u afaRate).serviceTax :=
    fun _ => rfl
  rw [e, e]
  linarith

/-- Witness for C18 across the 600 kWh threshold, AFA 3 sen. -/
theorem billAmount_monotone_whole_kwh_witness :
    (0 : ℤ) ≤ 600 ∧ (600 : ℤ) ≤ 601 ∧ (0 : ℚ) ≤ 3 ∧
      (calculateTnbBill ((600 : ℤ) : ℚ) 3).billAmount ≤
        (calculateTnbBill ((601 : ℤ) : ℚ) 3).billAmount :=
  ⟨by decide, by decide, by norm_num,
    billAmount_monotone_whole_kwh 600 601 3 (by decide) (by decide) (by norm_num)⟩

/-- C19: battery savings are counted in `totalSavings` but never reduce
`finalBill`.  `batteryStorageKwh` is the stored solar energy per day times 30,
`batterySavings` is `batteryStorageKwh * RETAIL_TARIFF_LOW` at the fixed positive
rate 0.4443, and `totalSavings` is
`directSavings + batterySavings + atapExportCredit`.  For every input with
`atapExportCredit <= billWithSolar`, `finalBill` is
`billWithSolar - atapExportCredit`, so
`billWithoutSolar - finalBill = totalSavings - batterySavings`, and
`finalBill = billWithoutSolar - totalSavings` holds exactly when
`batteryStorageKwh = 0`. -/
theorem batterySavings_outside_finalBill (storedSolar monthlyUsage monthlySolarGeneration
    selfConsumptionPercent smpRate afaRate : ℚ)
    (h : (calculateAtapSavings storedSolar monthlyUsage monthlySolarGeneration
          selfConsumptionPercent smpRate afaRate).atapExportCredit ≤
        (calculateAtapSavings storedSolar monthlyUsage monthlySolarGeneration
          selfConsumptionPercent smpRate afaRate).billWithSolar) :
    (calculateAtapSavings storedSolar monthlyUsage monthlySolarGeneration
          selfConsumptionPercent smpRate afaRate).batteryStorageKwh =
        storedSolar * 30 ∧
      (calculateAtapSavings storedSolar monthlyUsage monthlySolarGeneration
          selfConsumptionPercent smpRate afaRate).batterySavings =
        storedSolar * 30 * RETAIL_TARIFF_LOW ∧
      RETAIL_TARIFF_LOW = 0.4443 ∧
      (calculateAtapSavings storedSolar monthlyUsage monthlySolarGeneration
          selfConsumptionPercent smpRate afaRate).billWithoutSolar =
        (calculateTnbBill monthlyUsage afaRate).billAmount ∧
      (calculateAtapSavings storedSolar monthlyUsage monthlySolarGeneration
          selfConsumptionPercent smpRate afaRate).billWithSolar =
        (calculateAfterSolarBill monthlyUsage
          (min monthlySolarGeneration (monthlySolarGeneration * (selfConsumptionPercent / 100)))
          afaRate).billAmount ∧
      (calculateAtapSavings storedSolar monthlyUsage monthlySolarGeneration
          selfConsumptionPercent smpRate afaRate).directSavings =
        (calculateTnbBill monthlyUsage afaRate).billAmount -
          (calculateAtapSavings storedSolar monthlyUsage monthlySolarGeneration
          selfConsumptionPercent smpRate afaRate).billWithSolar ∧
      (calculateAtapSavings storedSolar monthlyUsage monthlySolarGeneration
          selfConsumptionPercent smpRate afaRate).atapExportCredit =
        max 0 (monthlySolarGeneration -
          min monthlySolarGeneration (monthlySolarGeneration * (selfConsumptionPercent / 100)) -
          storedSolar * 30) * smpRate ∧
      (calculateAtapSavings storedSolar monthlyUsage monthlySolarGeneration
          selfConsumptionPercent smpRate afaRate).totalSavings =
        (calculateAtapSavings storedSolar monthlyUsage monthlySolarGeneration
          selfConsumptionPercent smpRate afaRate).directSavings +
          (calculateAtapSavings storedSolar monthlyUsage monthlySolarGeneration
          selfConsumptionPercent smpRate afaRate).batterySavings +
          (calculateAtapSavings storedSolar monthlyUsage monthlySolarGeneration
          selfConsumptionPercent smpRate afaRate).atapExportCredit ∧
      (calculateAtapSavings storedSolar monthlyUsage monthlySolarGeneration
          selfConsumptionPercent smpRate afaRate).finalBill =
        (calculateAtapSavings storedSolar monthlyUsage monthlySolarGeneration
          selfConsumptionPercent smpRate afaRate).billWithSolar -
          (calculateAtapSavings storedSolar monthlyUsage monthlySolarGeneration
          selfConsumptionPercent smpRate afaRate).atapExportCredit ∧
      (calculateAtapSavings storedSolar monthlyUsage monthlySolarGeneration
          selfConsumptionPercent smpRate afaRate).billWithoutSolar -
          (calculateAtapSavings storedSolar monthlyUsage monthlySolarGeneration
          selfConsumptionPercent smpRate afaRate).finalBill =
        (calculateAtapSavings storedSolar monthlyUsage monthlySolarGeneration
          selfConsumptionPercent smpRate afaRate).totalSavings -
          (calculateAtapSavings storedSolar monthlyUsage monthlySolarGeneration
          selfConsumptionPercent smpRate afaRate).batterySavings ∧
      ((calculateAtapSavings storedSolar monthlyUsage monthlySolarGeneration
          selfConsumptionPercent smpRate afaRate).finalBill =
          (calculateAtapSavings storedSolar monthlyUsage monthlySolarGeneration
          selfConsumptionPercent smpRate afaRate).billWithoutSolar -
            (calculateAtapSavings storedSolar monthlyUsage monthlySolarGeneration
          selfConsumptionPercent smpRate afaRate).totalSavings ↔
        (calculateAtapSavings storedSolar monthlyUsage monthlySolarGeneration
          selfConsumptionPercent smpRate afaRate).batteryStorageKwh = 0) := by
  have hrate : (0 : ℚ) < RETAIL_TARIFF_LOW := by norm_num [RETAIL_TARIFF_LOW]
  have hfinal : (calculateAtapSavings storedSolar monthlyUsage monthlySolarGeneration
          selfConsumptionPercent smpRate afaRate).finalBill =
      (calculateAtapSavings storedSolar monthlyUsage monthlySolarGeneration
          selfConsumptionPercent smpRate afaRate).billWithSolar -
        (calculateAtapSavings storedSolar monthlyUsage monthlySolarGeneration
          selfConsumptionPercent smpRate afaRate).atapExportCredit := by
    simp only [calculateAtapSavings] at h ⊢
    exact max_eq_right (sub_nonneg.mpr h)
  refine ⟨rfl, rfl, by norm_num [RETAIL_TARIFF_LOW], rfl, rfl, rfl, rfl, rfl, hfinal, ?_, ?_⟩
  · rw [hfinal]
    simp only [calculateAtapSavings]
    ring
  · rw [hfinal]
    simp only [calculateAtapSavings]
    constructor
    · intro heq
      have hz : storedSolar * 30 * RETAIL_TARIFF_LOW = 0 := by linarith
      rcases mul_eq_zero.mp hz with h0 | h0
      · exact h0
      · exact absurd h0 (ne_of_gt hrate)
    · intro h0
      rw [h0]
      ring

/-- Witness for C19: 300 kWh of usage, 100 kWh of generation at 50%
self-consumption and 1 kWh/day of stored solar.  The battery holds 30 kWh worth
RM 13.329, which is part of `totalSavings = 33.294`, while
`finalBill = 49.825 - 4 = 45.825` is not `billWithoutSolar - totalSavings`. -/
theorem batterySavings_outside_finalBill_witness :
    (calculateAtapSavings 1 300 100 50 0.20 0).atapExportCredit ≤
        (calculateAtapSavings 1 300 100 50 0.20 0).billWithSolar ∧
      (calculateAtapSavings 1 300 100 50 0.20 0).batteryStorageKwh = 30 ∧
      (calculateAtapSavings 1 300 100 50 0.20 0).batterySavings = 13.329 ∧
      (calculateAtapSavings 1 300 100 50 0.20 0).billWithoutSolar = 65.79 ∧
      (calculateAtapSavings 1 300 100 50 0.20 0).billWithSolar = 49.825 ∧
      (calculateAtapSavings 1 300 100 50 0.20 0).atapExportCredit = 4 ∧
      (calculateAtapSavings 1 300 100 50 0.20 0).totalSavings = 33.294 ∧
      (calculateAtapSavings 1 300 100 50 0.20 0).finalBill = 45.825 ∧
      (calculateAtapSavings 1 300 100 50 0.20 0).billWithoutSolar -
          (calculateAtapSavings 1 300 100 50 0.20 0).finalBill =
        (calculateAtapSavings 1 300 100 50 0.20 0).totalSavings -
          (calculateAtapSavings 1 300 100 50 0.20 0).batterySavings ∧
      (calculateAtapSavings 1 300 100 50 0.20 0).finalBill ≠
        (calculateAtapSavings 1 300 100 50 0.20 0).billWithoutSolar -
          (calculateAtapSavings 1 300 100 50 0.20 0).totalSavings :=
  have hmin : min (100 : ℚ) (100 * (50 / 100)) = 50 := by norm_num
  have hgrid : max (0 : ℚ) (300 - 50) = 250 := by norm_num
  have hexp : max (0 : ℚ) (100 - 50 - 1 * 30) = 20 := by norm_num
  have hb0 : (calculateTnbBill 300 0).billAmount = 65.79 := by
    norm_num [calculateTnbBill, getIncentiveRate, incentiveRates, scanRanges, inRange, rates]
  have hb1 : (calculateTnbBill 250 0).billAmount = 49.825 := by
    norm_num [calculateTnbBill, getIncentiveRate, incentiveRates, scanRanges, inRange, rates]
  have hws : (calculateAtapSavings 1 300 100 50 0.20 0).billWithSolar = 49.825 := by
    simp only [calculateAtapSavings, calculateAfterSolarBill, hmin, hgrid, hb1]
  have hcr : (calculateAtapSavings 1 300 100 50 0.20 0).atapExportCredit = 4 := by
    simp only [calculateAtapSavings, hmin, hexp]
    norm_num
  have hle : (calculateAtapSavings 1 300 100 50 0.20 0).atapExportCredit ≤
      (calculateAtapSavings 1 300 100 50 0.20 0).billWithSolar := by
    rw [hws, hcr]
    norm_num
  have hthm := batterySavings_outside_finalBill 1 300 100 50 0.20 0 hle
  have hbs : (calculateAtapSavings 1 300 100 50 0.20 0).batterySavings = 13.329 := by
    rw [hthm.2.1]
    norm_num [RETAIL_TARIFF_LOW]
  have hwo : (calculateAtapSavings 1 300 100 50 0.20 0).billWithoutSolar = 65.79 := by
    rw [hthm.2.2.2.1, hb0]
  have hts : (calculateAtapSavings 1 300 100 50 0.20 0).totalSavings = 33.294 := by
    rw [hthm.2.2.2.2.2.2.2.1, hthm.2.2.2.2.2.1, hbs, hcr, hws, hb0]
    norm_num
  have hfb : (calculateAtapSavings 1 300 100 50 0.20 0).finalBill = 45.825 := by
    rw [hthm.2.2.2.2.2.2.2.2.1, hws, hcr]
    norm_num
  ⟨hle, by rw [hthm.1]; norm_num, hbs, hwo, hws, hcr, hts, hfb, hthm.2.2.2.2.2.2.2.2.2.1,
    by rw [hfb, hwo, hts]; norm_num⟩

/-- C20 fails on the code: 1500 kWh converts to a bill of RM 666.45, which is
above the threshold 664.5 of `getTariffRateFromBill`, so the reverse conversion
divides by the high rate and gives 666.45 / 0.5443 (about 1224.42, shown as
1224 kWh) instead of 1500.  The threshold is `1500 * 0.443`, not
`1500 * 0.4443 = 666.45`. -/
theorem bill_kwh_roundtrip_breaks_at_1500 :
    (0 : ℚ) < 1500 ∧
      getTariffRate 1500 = 0.4443 ∧
      monthlyBillOfUsage 1500 = 666.45 ∧
      getTariffRateFromBill (monthlyBillOfUsage 1500) = 0.5443 ∧
      monthlyUsageOfBill (monthlyBillOfUsage 1500) = 666.45 / 0.5443 ∧
      monthlyUsageOfBill (monthlyBillOfUsage 1500) ≠ 1500 ∧
      mathRound (monthlyUsageOfBill (monthlyBillOfUsage 1500)) = 1224 ∧
      (1500 : ℚ) * 0.443 = 664.5 ∧ (1500 : ℚ) * RETAIL_TARIFF_LOW = 666.45 := by
  have hb : monthlyBillOfUsage 1500 = 666.45 := by
    norm_num [monthlyBillOfUsage, getTariffRate, RETAIL_TARIFF_LOW]
  have hu : monthlyUsageOfBill 666.45 = 666.45 / 0.5443 := by
    norm_num [monthlyUsageOfBill, getTariffRateFromBill, RETAIL_TARIFF_HIGH]
  refine ⟨by norm_num, ?_, hb, ?_, ?_, ?_, ?_, by norm_num, ?_⟩
  · norm_num [getTariffRate, RETAIL_TARIFF_LOW]
  · rw [hb]; norm_num [getTariffRateFromBill, RETAIL_TARIFF_HIGH]
  · rw [hb, hu]
  · rw [hb, hu]; norm_num
  · rw [hb, hu]
    have := mathRound_eq_of_bounds (666.45 / 0.5443) 1224 (by norm_num) (by norm_num)
    simpa using this
  · norm_num [RETAIL_TARIFF_LOW]

end TnbCalc
